import Mathlib

/-!
Shallow embedding of the "Backend Mega Project" controllers of the repository:
the like/subscription toggle operations, the comment/video/tweet/playlist
mutation endpoints with their authorization gates, the aggregation-and-
pagination listing endpoints, and the media-upload wrapper.

The persistent store is modelled as an explicit `DB` value (lists of
documents); `mongoose` queries become list operations; `req.user?._id` is an
`Option Nat`; `mongoose.Types.ObjectId.isValid(x)` is a boolean argument
`validId` (id strings themselves are modelled as `Nat`); throwing `ApiError`
becomes returning the `Out.err` constructor, which carries no state, because
the controller aborts before performing any write.
-/

/-- Digits-to-number accumulator used by the `parseInt` model. -/
def natOfDigits (ds : List Char) : Nat :=
  ds.foldl (fun a c => a * 10 + (c.toNat - 48)) 0

/-- JavaScript `parseInt(s, 10)`: skip leading whitespace, read an optional
sign, then the longest prefix of decimal digits; `none` models `NaN`
(no digit found). -/
def jsParseInt (s : String) : Option Int :=
  let cs := s.data.dropWhile (fun c => c.isWhitespace)
  let signRest : Int × List Char :=
    match cs with
    | '-' :: r => (-1, r)
    | '+' :: r => (1, r)
    | r => (1, r)
  let ds := signRest.2.takeWhile (fun c => c.isDigit)
  if ds.isEmpty then none
  else some (signRest.1 * (natOfDigits ds : Int))

/-- JavaScript `String.prototype.trim()`: strip whitespace from both ends
(modelled on the character list, so that it evaluates by `decide`). -/
def strTrim (s : String) : String :=
  ⟨((s.data.dropWhile (fun c => c.isWhitespace)).reverse.dropWhile (fun c => c.isWhitespace)).reverse⟩

/-- JavaScript `String.prototype.toLowerCase()` (modelled on the character
list). -/
def strToLower (s : String) : String :=
  ⟨s.data.map Char.toLower⟩

/-- JavaScript falsiness of an optional string field: `undefined` and the
empty string are falsy (`!x`). -/
def jsFalsy (s : Option String) : Bool :=
  match s with
  | none => true
  | some t => t = ""

/-- The source's `!x || x.trim() === ""` validation on an optional string. -/
def isBlankOpt (s : Option String) : Bool :=
  match s with
  | none => true
  | some t => strTrim t = ""

/-- The `$in: [req.user?._id, arrayOfActorIds]` aggregation test.  When no
actor is authenticated, `req.user?._id` is `undefined`, which the driver
serializes as `null`; `null` is equal to no ObjectId in the joined array,
so the test is `false`. -/
def jsInOpt (actor : Option Nat) (ids : List Nat) : Bool :=
  match actor with
  | some a => ids.contains a
  | none => false

/-- User document (the fields the embedded controllers read). -/
structure UserDoc where
  uid : Nat
  username : String
  email : String
  fullName : String
  avatar : String
  coverImage : String
deriving DecidableEq, Repr

/-- Video document. -/
structure VideoDoc where
  vid : Nat
  owner : Nat
  title : String
  description : String
  videoFile : String
  thumbnail : String
  isPublished : Bool
  views : Nat
  duration : Nat
  createdAt : Nat
  updatedAt : Nat
deriving DecidableEq, Repr

/-- Comment document. -/
structure CommentDoc where
  cid : Nat
  video : Nat
  owner : Nat
  content : String
  createdAt : Nat
deriving DecidableEq, Repr

/-- Tweet document. -/
structure TweetDoc where
  tid : Nat
  owner : Nat
  content : String
  createdAt : Nat
deriving DecidableEq, Repr

/-- The single target referenced by a Like document (the schema stores at
most one of the `video`/`comment`/`tweet` fields per record). -/
inductive LikeTarget where
  | video (v : Nat)
  | comment (c : Nat)
  | tweet (t : Nat)
deriving DecidableEq, Repr

/-- Like document. -/
structure LikeDoc where
  lid : Nat
  target : LikeTarget
  likedBy : Nat
deriving DecidableEq, Repr

/-- Subscription document. -/
structure SubDoc where
  sid : Nat
  subscriber : Nat
  channel : Nat
deriving DecidableEq, Repr

/-- Playlist document. -/
structure PlaylistDoc where
  pid : Nat
  owner : Nat
  name : String
  description : String
  videos : List Nat
deriving DecidableEq, Repr

/-- The persistent store: one list per collection, plus a counter supplying
fresh `_id`s for created documents. -/
structure DB where
  users : List UserDoc
  videos : List VideoDoc
  comments : List CommentDoc
  tweets : List TweetDoc
  likes : List LikeDoc
  subs : List SubDoc
  playlists : List PlaylistDoc
  nextId : Nat
deriving DecidableEq, Repr

/-- A controller outcome: `ok` mirrors `res.status(s).json(new ApiResponse
(s, data, msg))` and carries the store after the request; `err` mirrors
`throw new ApiError(s, msg)`, which aborts before any write. -/
inductive Out (α : Type) where
  | ok (status : Nat) (db : DB) (data : α)
  | err (status : Nat) (msg : String)
deriving DecidableEq, Repr

/-- HTTP status of an outcome (`ApiResponse.statusCode` / `ApiError.statusCode`). -/
def statusOf {α : Type} : Out α → Nat
  | .ok s _ _ => s
  | .err s _ => s

/-- Store after an outcome: an error leaves the store as it was. -/
def outDB {α : Type} (db : DB) : Out α → DB
  | .ok _ db' _ => db'
  | .err _ _ => db

/-- Response payload of a successful outcome. -/
def dataOf {α : Type} : Out α → Option α
  | .ok _ _ d => some d
  | .err _ _ => none

/-- `Video.findById(id)`. -/
def findVideo (db : DB) (i : Nat) : Option VideoDoc :=
  db.videos.find? (fun v => v.vid == i)

/-- `Comment.findById(id)`. -/
def findComment (db : DB) (i : Nat) : Option CommentDoc :=
  db.comments.find? (fun c => c.cid == i)

/-- `Tweet.findById(id)`. -/
def findTweet (db : DB) (i : Nat) : Option TweetDoc :=
  db.tweets.find? (fun t => t.tid == i)

/-- `Playlist.findById(id)`. -/
def findPlaylist (db : DB) (i : Nat) : Option PlaylistDoc :=
  db.playlists.find? (fun p => p.pid == i)

/-- `User.findById(id)`. -/
def findUser (db : DB) (i : Nat) : Option UserDoc :=
  db.users.find? (fun u => u.uid == i)

/-- `Like.findOne({ <targetField>: targetId, likedBy: userId })`: the first
document matching both fields, if any. -/
def findLike : List LikeDoc → LikeTarget → Nat → Option LikeDoc
  | [], _, _ => none
  | l :: rest, t, u => if l.target = t ∧ l.likedBy = u then some l else findLike rest t u

/-- `Like.findByIdAndDelete(id)` (documents' `_id`s are unique). -/
def removeLikeById (likes : List LikeDoc) (i : Nat) : List LikeDoc :=
  likes.filter (fun l => l.lid != i)

/-- `Like.countDocuments({ <targetField>: targetId })`. -/
def countLikesFor (likes : List LikeDoc) (t : LikeTarget) : Nat :=
  (likes.filter (fun l => decide (l.target = t))).length

/-- `Subscription.findOne({ subscriber, channel })`: the first document
matching both fields, if any. -/
def findSub : List SubDoc → Nat → Nat → Option SubDoc
  | [], _, _ => none
  | x :: rest, s, c => if x.subscriber = s ∧ x.channel = c then some x else findSub rest s c

/-- `Subscription.findByIdAndDelete(id)`. -/
def removeSubById (subs : List SubDoc) (i : Nat) : List SubDoc :=
  subs.filter (fun x => x.sid != i)

/-- `Subscription.countDocuments({ channel })`. -/
def countSubsFor (subs : List SubDoc) (c : Nat) : Nat :=
  (subs.filter (fun x => x.channel == c)).length

/-- Response body of the three like toggles: `{ <targetId>, liked, likeCount }`. -/
structure LikeToggleData where
  targetId : Nat
  liked : Bool
  likeCount : Nat
deriving DecidableEq, Repr

/-- Response body of `toggleSubscription`: `{ channelId, subscribed, subscriberCount }`. -/
structure SubToggleData where
  channelId : Nat
  subscribed : Bool
  subscriberCount : Nat
deriving DecidableEq, Repr

/-- `toggleVideoLike` (src/controllers/like.controllers.js, lines 10-52). -/
def toggleVideoLike (db : DB) (userId videoId : Nat) (validId : Bool) : Out LikeToggleData :=
  if !validId then .err 400 "Invalid video ID format"
  else
    match findVideo db videoId with
    | none => .err 404 "Video not found"
    | some video =>
      if !video.isPublished then .err 403 "Cannot like an unpublished video"
      else
        match findLike db.likes (.video videoId) userId with
        | some existing =>
          let likes' := removeLikeById db.likes existing.lid
          .ok 200 { db with likes := likes' } ⟨videoId, false, countLikesFor likes' (.video videoId)⟩
        | none =>
          let likes' := db.likes ++ [⟨db.nextId, .video videoId, userId⟩]
          .ok 200 { db with likes := likes', nextId := db.nextId + 1 }
            ⟨videoId, true, countLikesFor likes' (.video videoId)⟩

/-- `toggleCommentLike` (like.controllers.js, lines 54-90). -/
def toggleCommentLike (db : DB) (userId commentId : Nat) (validId : Bool) : Out LikeToggleData :=
  if !validId then .err 400 "Invalid comment ID format"
  else
    match findComment db commentId with
    | none => .err 404 "Comment not found"
    | some _ =>
      match findLike db.likes (.comment commentId) userId with
      | some existing =>
        let likes' := removeLikeById db.likes existing.lid
        .ok 200 { db with likes := likes' } ⟨commentId, false, countLikesFor likes' (.comment commentId)⟩
      | none =>
        let likes' := db.likes ++ [⟨db.nextId, .comment commentId, userId⟩]
        .ok 200 { db with likes := likes', nextId := db.nextId + 1 }
          ⟨commentId, true, countLikesFor likes' (.comment commentId)⟩

/-- `toggleTweetLike` (like.controllers.js, lines 92-128). -/
def toggleTweetLike (db : DB) (userId tweetId : Nat) (validId : Bool) : Out LikeToggleData :=
  if !validId then .err 400 "Invalid tweet ID format"
  else
    match findTweet db tweetId with
    | none => .err 404 "Tweet not found"
    | some _ =>
      match findLike db.likes (.tweet tweetId) userId with
      | some existing =>
        let likes' := removeLikeById db.likes existing.lid
        .ok 200 { db with likes := likes' } ⟨tweetId, false, countLikesFor likes' (.tweet tweetId)⟩
      | none =>
        let likes' := db.likes ++ [⟨db.nextId, .tweet tweetId, userId⟩]
        .ok 200 { db with likes := likes', nextId := db.nextId + 1 }
          ⟨tweetId, true, countLikesFor likes' (.tweet tweetId)⟩

/-- `toggleSubscription` (subscription controller, lines 859-906): the self-
subscription guard compares the two id strings and runs before the channel
existence lookup. -/
def toggleSubscription (db : DB) (subscriberId channelId : Nat) (validId : Bool) : Out SubToggleData :=
  if !validId then .err 400 "Invalid channel ID format"
  else if channelId = subscriberId then .err 400 "Users cannot subscribe to their own channel"
  else
    match findUser db channelId with
    | none => .err 404 "Channel (user) not found"
    | some _ =>
      match findSub db.subs subscriberId channelId with
      | some existing =>
        let subs' := removeSubById db.subs existing.sid
        .ok 200 { db with subs := subs' } ⟨channelId, false, countSubsFor subs' channelId⟩
      | none =>
        let subs' := db.subs ++ [⟨db.nextId, subscriberId, channelId⟩]
        .ok 200 { db with subs := subs', nextId := db.nextId + 1 }
          ⟨channelId, true, countSubsFor subs' channelId⟩

/-- `addComment` (comment.controllers.js, lines 106-144): content is
validated, then the parent video must exist and be published before the
Comment record is created. -/
def addComment (db : DB) (userId videoId : Nat) (validId : Bool)
    (content : Option String) (now : Nat) : Out CommentDoc :=
  if !validId then .err 400 "Invalid video ID format"
  else if isBlankOpt content then .err 400 "Comment content cannot be empty"
  else
    match findVideo db videoId with
    | none => .err 404 "Video not found, cannot add comment"
    | some video =>
      if !video.isPublished then .err 403 "Cannot comment on an unpublished video"
      else
        let comment : CommentDoc := ⟨db.nextId, videoId, userId, content.getD "", now⟩
        .ok 201 { db with comments := db.comments ++ [comment], nextId := db.nextId + 1 } comment

/-- `updateComment` (comment.controllers.js, lines 146-181): only the
comment's owner passes the gate; the parent video's owner is not consulted. -/
def updateComment (db : DB) (userId commentId : Nat) (validId : Bool)
    (content : Option String) : Out CommentDoc :=
  if !validId then .err 400 "Invalid comment ID format"
  else if isBlankOpt content then .err 400 "Comment content cannot be empty"
  else
    match findComment db commentId with
    | none => .err 404 "Comment not found"
    | some comment =>
      if comment.owner != userId then .err 403 "You are not authorized to update this comment"
      else
        let updated := { comment with content := content.getD "" }
        .ok 200 { db with comments := db.comments.map (fun c => if c.cid = commentId then updated else c) }
          updated

/-- `deleteComment` (comment.controllers.js, lines 183-216): the comment's
owner may delete, and otherwise the owner of the comment's parent video may
(`!videoOfComment || videoOfComment.owner !== req.user._id` throws 403). -/
def deleteComment (db : DB) (userId commentId : Nat) (validId : Bool) : Out Nat :=
  if !validId then .err 400 "Invalid comment ID format"
  else
    match findComment db commentId with
    | none => .err 404 "Comment not found"
    | some comment =>
      let videoOwnerOk : Bool :=
        match findVideo db comment.video with
        | none => false
        | some v => v.owner == userId
      if comment.owner != userId && !videoOwnerOk then
        .err 403 "You are not authorized to delete this comment"
      else
        .ok 200 { db with comments := db.comments.filter (fun c => c.cid != commentId) } commentId

/-- `updateTweet` (tweet controller, lines 782-814). -/
def updateTweet (db : DB) (userId tweetId : Nat) (validId : Bool)
    (content : Option String) : Out TweetDoc :=
  if !validId then .err 400 "Invalid tweet ID format"
  else if isBlankOpt content then .err 400 "Tweet content cannot be empty"
  else
    match findTweet db tweetId with
    | none => .err 404 "Tweet not found"
    | some tweet =>
      if tweet.owner != userId then .err 403 "You are not authorized to update this tweet"
      else
        let updated := { tweet with content := content.getD "" }
        .ok 200 { db with tweets := db.tweets.map (fun t => if t.tid = tweetId then updated else t) }
          updated

/-- `deleteTweet` (tweet controller, lines 816-845). -/
def deleteTweet (db : DB) (userId tweetId : Nat) (validId : Bool) : Out Nat :=
  if !validId then .err 400 "Invalid tweet ID format"
  else
    match findTweet db tweetId with
    | none => .err 404 "Tweet not found"
    | some tweet =>
      if tweet.owner != userId then .err 403 "You are not authorized to delete this tweet"
      else
        .ok 200 { db with tweets := db.tweets.filter (fun t => t.tid != tweetId) } tweetId

/-- Result of a successful upload at the media host (`{url, duration, ...}`). -/
structure UploadRes where
  url : String
  duration : Nat
deriving DecidableEq, Repr

/-- `updateVideo` (video controller, lines 525-581).  `thumbUpload` is the
outcome `await uploadOnCloudinary(thumbnailLocalPath)` would produce. -/
def updateVideo (db : DB) (userId videoId : Nat) (validId : Bool)
    (title description thumbPath : Option String) (thumbUpload : Option UploadRes) : Out VideoDoc :=
  if !validId then .err 400 "Invalid video ID format"
  else if jsFalsy title && jsFalsy description && jsFalsy thumbPath then
    .err 400 "At least one field (title, description, or thumbnail) must be provided for update."
  else
    match findVideo db videoId with
    | none => .err 404 "Video not found"
    | some video =>
      if video.owner != userId then .err 403 "You are not authorized to update this video"
      else
        let v1 := if !jsFalsy title && strTrim (title.getD "") != "" then { video with title := title.getD "" } else video
        let v2 := if !jsFalsy description && strTrim (description.getD "") != "" then { v1 with description := description.getD "" } else v1
        if !jsFalsy thumbPath then
          match thumbUpload with
          | none => .err 500 "Error uploading new thumbnail to Cloudinary"
          | some up =>
            let v3 := { v2 with thumbnail := up.url }
            .ok 200 { db with videos := db.videos.map (fun w => if w.vid = videoId then v3 else w) } v3
        else
          .ok 200 { db with videos := db.videos.map (fun w => if w.vid = videoId then v2 else w) } v2

/-- `deleteVideo` (video controller, lines 583-621). -/
def deleteVideo (db : DB) (userId videoId : Nat) (validId : Bool) : Out Nat :=
  if !validId then .err 400 "Invalid video ID format"
  else
    match findVideo db videoId with
    | none => .err 404 "Video not found"
    | some video =>
      if video.owner != userId then .err 403 "You are not authorized to delete this video"
      else
        .ok 200 { db with videos := db.videos.filter (fun v => v.vid != videoId) } videoId

/-- `updatePlaylist` (playlist controller, lines 316-361): `name` is applied
when truthy and non-blank; `description` is applied whenever it is provided
(`description !== undefined`), even if empty. -/
def updatePlaylist (db : DB) (userId playlistId : Nat) (validId : Bool)
    (name description : Option String) : Out PlaylistDoc :=
  if !validId then .err 400 "Invalid playlist ID format"
  else if isBlankOpt name && isBlankOpt description then
    .err 400 "Either name or description must be provided to update the playlist"
  else
    match findPlaylist db playlistId with
    | none => .err 404 "Playlist not found"
    | some playlist =>
      if playlist.owner != userId then .err 403 "You are not authorized to update this playlist"
      else
        let p1 := if !jsFalsy name && strTrim (name.getD "") != "" then { playlist with name := name.getD "" } else playlist
        let p2 := if description.isSome then { p1 with description := description.getD "" } else p1
        .ok 200 { db with playlists := db.playlists.map (fun p => if p.pid = playlistId then p2 else p) } p2

/-- `deletePlaylist` (playlist controller, lines 285-314). -/
def deletePlaylist (db : DB) (userId playlistId : Nat) (validId : Bool) : Out Nat :=
  if !validId then .err 400 "Invalid playlist ID format"
  else
    match findPlaylist db playlistId with
    | none => .err 404 "Playlist not found"
    | some playlist =>
      if playlist.owner != userId then .err 403 "You are not authorized to delete this playlist"
      else
        .ok 200 { db with playlists := db.playlists.filter (fun p => p.pid != playlistId) } playlistId

/-- `uploadOnCloudinary` (src/utils/cloudinary.js).  `files` is the set of
local temporary files; `remote` is the outcome of the upload call at the
media host (`none` = the call threw).  On success the file is unlinked after
the result is obtained; if that unlink throws (file already gone), the catch
block sees a non-existent file and returns `null`.  On failure the catch
block unlinks the file when it still exists and returns `null`. -/
def uploadOnCloudinary (localFilePath : Option String) (files : List String)
    (remote : Option UploadRes) : Option UploadRes × List String :=
  if jsFalsy localFilePath then (none, files)
  else
    let p := localFilePath.getD ""
    match remote with
    | some res =>
      if files.contains p then (some res, files.filter (fun q => q != p))
      else (none, files)
    | none =>
      if files.contains p then (none, files.filter (fun q => q != p))
      else (none, files)

/-- Public owner projection `$project { username: 1, avatar: 1, fullName: 1 }`
(`_id` is kept by default). -/
structure OwnerInfo where
  uid : Nat
  username : String
  avatar : String
  fullName : String
deriving DecidableEq, Repr

/-- The projection applied inside owner `$lookup`s. -/
def projOwner (u : UserDoc) : OwnerInfo :=
  ⟨u.uid, u.username, u.avatar, u.fullName⟩

/-- `$lookup` of the owner followed by `$first`: zero matches degrade to
`null` rather than failing. -/
def ownerDetailsOf (db : DB) (ownerId : Nat) : Option OwnerInfo :=
  ((db.users.filter (fun u => u.uid == ownerId)).map projOwner).head?

/-- `$lookup from likes` for one target. -/
def likesFor (db : DB) (t : LikeTarget) : List LikeDoc :=
  db.likes.filter (fun l => decide (l.target = t))

/-- Insert into a list sorted by `le` (used to model `$sort`). -/
def insertSortedBy {α : Type} (le : α → α → Bool) (x : α) : List α → List α
  | [] => [x]
  | y :: ys => if le x y then x :: y :: ys else y :: insertSortedBy le x ys

/-- Sorting model for the `$sort` aggregation stage. -/
def sortWith {α : Type} (le : α → α → Bool) : List α → List α
  | [] => []
  | x :: xs => insertSortedBy le x (sortWith le xs)

/-- Enriched comment record produced by the `getVideoComments` pipeline
(`$project { content, createdAt, owner, likeCount, isLiked }`). -/
structure EnrichedComment where
  cid : Nat
  content : String
  createdAt : Nat
  owner : Option OwnerInfo
  likeCount : Nat
  isLiked : Bool
deriving DecidableEq, Repr

/-- The `$addFields`/`$project` enrichment of one comment. -/
def enrichComment (db : DB) (actor : Option Nat) (c : CommentDoc) : EnrichedComment :=
  { cid := c.cid
    content := c.content
    createdAt := c.createdAt
    owner := ownerDetailsOf db c.owner
    likeCount := (likesFor db (.comment c.cid)).length
    isLiked := jsInOpt actor ((likesFor db (.comment c.cid)).map (fun l => l.likedBy)) }

/-- The full `getVideoComments` aggregation before pagination: match by
video, enrich, sort by `createdAt` descending. -/
def commentListing (db : DB) (actor : Option Nat) (videoId : Nat) : List EnrichedComment :=
  sortWith (fun a b => b.createdAt ≤ a.createdAt)
    ((db.comments.filter (fun c => c.video == videoId)).map (enrichComment db actor))

/-- Result shape of `aggregatePaginate` (the per-resource `customLabels`
only rename the `docs`/`totalDocs` keys and are not modelled). -/
structure PaginateResult (α : Type) where
  docs : List α
  totalDocs : Nat
  limit : Nat
  page : Nat
  totalPages : Nat
  hasNextPage : Bool
  hasPrevPage : Bool
deriving DecidableEq, Repr

/-- Modelled from the spec (§4.2 Paginator): the pagination library
(`mongoose-aggregate-paginate-v2`) is an external dependency whose source is
not part of this repository; its windowing contract per the spec is
skip/take with total-count bookkeeping. -/
def paginate {α : Type} (items : List α) (page limit : Nat) : PaginateResult α :=
  { docs := (items.drop ((page - 1) * limit)).take limit
    totalDocs := items.length
    limit := limit
    page := page
    totalPages := max 1 ((items.length + limit - 1) / limit)
    hasNextPage := page < max 1 ((items.length + limit - 1) / limit)
    hasPrevPage := 1 < page }

/-- Modelled from the spec (§4.2 Paginator): the library's coercion of the
`page` option — invalid (`NaN`) or non-positive values default to 1. -/
def coercePage (o : Option Int) : Nat :=
  match o with
  | some n => if 0 < n then n.toNat else 1
  | none => 1

/-- Modelled from the spec (§4.2 Paginator): the library's coercion of the
`limit` option — invalid (`NaN`) or non-positive values default to 10. -/
def coerceLimit (o : Option Int) : Nat :=
  match o with
  | some n => if 0 < n then n.toNat else 10
  | none => 10

/-- The controllers' construction of the `page` option:
`const { page = 1 } = req.query; parseInt(page, 10)`, then the library's
coercion. -/
def pageParam (page : Option String) : Nat :=
  coercePage (jsParseInt (page.getD "1"))

/-- The controllers' construction of the `limit` option:
`const { limit = 10 } = req.query; parseInt(limit, 10)`, then the library's
coercion. -/
def limitParam (limit : Option String) : Nat :=
  coerceLimit (jsParseInt (limit.getD "10"))

/-- The raw `parseInt(page, 10) > 1` test used by the listing controllers'
short-circuit branch (`NaN > 1` is false in JavaScript). -/
def intGt1 (o : Option Int) : Bool :=
  match o with
  | some n => 1 < n
  | none => false

/-- Payload of a listing response: the full paginated object, the
`{ <items>: [], nextPage: null }` object returned when the requested page is
past the results, or the bare `[]` returned when the listing is empty. -/
inductive ListingData (α : Type) where
  | paged (r : PaginateResult α)
  | shortBeyond (items : List α) (nextPage : Option Nat)
  | emptyArr
deriving DecidableEq, Repr

/-- `getVideoComments` (comment.controllers.js, lines 8-104): the commented-
out `Video.findById` existence check is absent from the executed code. -/
def getVideoComments (db : DB) (actor : Option Nat) (videoId : Nat) (validId : Bool)
    (page limit : Option String) : Out (ListingData EnrichedComment) :=
  if !validId then .err 400 "Invalid video ID format"
  else
    let pOpt := jsParseInt (page.getD "1")
    let res := paginate (commentListing db actor videoId) (pageParam page) (limitParam limit)
    if res.docs.isEmpty && intGt1 pOpt then .ok 200 db (.shortBeyond [] none)
    else if res.docs.isEmpty then .ok 200 db .emptyArr
    else .ok 200 db (.paged res)

/-- Enriched video record produced by the `getAllVideos` pipeline. -/
structure EnrichedVideo where
  vid : Nat
  videoFile : String
  thumbnail : String
  title : String
  description : String
  duration : Nat
  views : Nat
  isPublished : Bool
  owner : Option OwnerInfo
  createdAt : Nat
  updatedAt : Nat
  likeCount : Nat
deriving DecidableEq, Repr

/-- The `getAllVideos` enrichment (`owner` collapsed via `$first`,
`likeCount` via `$size`; no `isLiked` field in this pipeline). -/
def enrichVideo (db : DB) (v : VideoDoc) : EnrichedVideo :=
  { vid := v.vid
    videoFile := v.videoFile
    thumbnail := v.thumbnail
    title := v.title
    description := v.description
    duration := v.duration
    views := v.views
    isPublished := v.isPublished
    owner := ownerDetailsOf db v.owner
    createdAt := v.createdAt
    updatedAt := v.updatedAt
    likeCount := (likesFor db (.video v.vid)).length }

/-- The `{ $regex: query, $options: 'i' }` test, modelled as
case-insensitive substring containment (the behaviour on patterns without
regex metacharacters). -/
def regexTestCI (pat s : String) : Bool :=
  ((strToLower s).splitOn (strToLower pat)).length ≥ 2

/-- Numeric sort key for `getAllVideos`' caller-declared `sortBy` field.
Non-numeric or unknown fields are modelled as a constant key (the relative
order under such a sort is not load-bearing in the theorems below). -/
def videoSortKey (f : String) (v : EnrichedVideo) : Nat :=
  if f = "views" then v.views
  else if f = "duration" then v.duration
  else if f = "updatedAt" then v.updatedAt
  else if f = "createdAt" then v.createdAt
  else 0

/-- The full `getAllVideos` aggregation before pagination: published videos,
optional query and owner filters, enrichment and sort. -/
def videoListing (db : DB) (query : Option String) (userId : Option Nat)
    (sortBy sortType : Option String) : List EnrichedVideo :=
  let base0 := db.videos.filter (fun v => v.isPublished)
  let base1 : List VideoDoc :=
    match query with
    | some q => if q = "" then base0 else base0.filter (fun v => regexTestCI q v.title || regexTestCI q v.description)
    | none => base0
  let base2 : List VideoDoc :=
    match userId with
    | some uid => base1.filter (fun v => v.owner == uid)
    | none => base1
  let enriched := base2.map (enrichVideo db)
  let sBy := sortBy.getD "createdAt"
  let sTy := sortType.getD "desc"
  if sBy ≠ "" ∧ sTy ≠ "" then
    if sTy = "asc" then sortWith (fun a b => videoSortKey sBy a ≤ videoSortKey sBy b) enriched
    else sortWith (fun a b => videoSortKey sBy b ≤ videoSortKey sBy a) enriched
  else sortWith (fun a b => b.createdAt ≤ a.createdAt) enriched

/-- `getAllVideos` (video controller, lines 230-380).  `userId` is the
optional owner filter (absent or falsy = `none`); `userIdValid` models
`mongoose.Types.ObjectId.isValid(userId)`. -/
def getAllVideos (db : DB) (page limit query sortBy sortType : Option String)
    (userId : Option Nat) (userIdValid : Bool) : Out (ListingData EnrichedVideo) :=
  if userId.isSome && !userIdValid then .err 400 "Invalid userId format"
  else
    let pOpt := jsParseInt (page.getD "1")
    let res := paginate (videoListing db query userId sortBy sortType) (pageParam page) (limitParam limit)
    if res.docs.isEmpty && intGt1 pOpt then .ok 200 db (.shortBeyond [] none)
    else if res.docs.isEmpty then .ok 200 db .emptyArr
    else .ok 200 db (.paged res)

/-- The `getUserChannelSubscribers` aggregation before pagination: match by
channel, `$lookup` each subscriber's public profile, `$unwind` (drops
subscriptions whose subscriber user no longer exists), `$replaceRoot`.  The
final `$sort { createdAt: -1 }` refers to a field absent from the projected
documents and is modelled as order-preserving. -/
def subscriberListing (db : DB) (channelId : Nat) : List OwnerInfo :=
  (db.subs.filter (fun s => s.channel == channelId)).filterMap
    (fun s => ownerDetailsOf db s.subscriber)

/-- `getUserChannelSubscribers` (subscription controller, lines 909-978). -/
def getUserChannelSubscribers (db : DB) (channelId : Nat) (validId : Bool)
    (page limit : Option String) : Out (ListingData OwnerInfo) :=
  if !validId then .err 400 "Invalid channel ID format"
  else
    match findUser db channelId with
    | none => .err 404 "Channel not found"
    | some _ =>
      let pOpt := jsParseInt (page.getD "1")
      let res := paginate (subscriberListing db channelId) (pageParam page) (limitParam limit)
      if res.docs.isEmpty && intGt1 pOpt then .ok 200 db (.shortBeyond [] none)
      else if res.docs.isEmpty then .ok 200 db .emptyArr
      else .ok 200 db (.paged res)

/-- The channel profile produced by `getUserChannelProfile`'s aggregation. -/
structure ChannelProfile where
  uid : Nat
  fullName : String
  email : String
  username : String
  avatar : String
  coverImage : String
  subscriberCount : Nat
  channelsSubscribedToCount : Nat
  isSubscribed : Bool
deriving DecidableEq, Repr

/-- The `$addFields` enrichment of one matched channel user. -/
def enrichChannel (db : DB) (actor : Option Nat) (u : UserDoc) : ChannelProfile :=
  let subscribers := db.subs.filter (fun s => s.channel == u.uid)
  let subscribedTo := db.subs.filter (fun s => s.subscriber == u.uid)
  { uid := u.uid
    fullName := u.fullName
    email := u.email
    username := u.username
    avatar := u.avatar
    coverImage := u.coverImage
    subscriberCount := subscribers.length
    channelsSubscribedToCount := subscribedTo.length
    isSubscribed := jsInOpt actor (subscribers.map (fun s => s.subscriber)) }

/-- `getUserChannelProfile` (user.controllers.js, lines 385-456). -/
def getUserChannelProfile (db : DB) (actor : Option Nat) (username : Option String) : Out ChannelProfile :=
  if isBlankOpt username then .err 400 "Username is required"
  else
    match (db.users.filter (fun u => u.username == strToLower (username.getD ""))).map (enrichChannel db actor) with
    | [] => .err 404 "Channel not found"
    | c :: _ => .ok 200 db c

/-- Presence of a Like for an (actor, target) pair. -/
def likedPairB (likes : List LikeDoc) (t : LikeTarget) (u : Nat) : Bool :=
  likes.any (fun l => decide (l.target = t) && l.likedBy == u)

/-- Presence of a Subscription for a (subscriber, channel) pair. -/
def subPairB (subs : List SubDoc) (s c : Nat) : Bool :=
  subs.any (fun x => x.subscriber == s && x.channel == c)

/-- Two Like documents for the same (target, actor) pair. -/
def samePairL (a b : LikeDoc) : Bool :=
  decide (a.target = b.target) && a.likedBy == b.likedBy

/-- Uniqueness invariant: no two Like documents in the list share a
(target, actor) pair. -/
def noDupLikePairs : List LikeDoc → Bool
  | [] => true
  | l :: rest => rest.all (fun k => !samePairL l k) && noDupLikePairs rest

/-- Two Subscription documents for the same (subscriber, channel) pair. -/
def samePairS (a b : SubDoc) : Bool :=
  a.subscriber == b.subscriber && a.channel == b.channel

/-- Uniqueness invariant: no two Subscription documents share a
(subscriber, channel) pair. -/
def noDupSubPairs : List SubDoc → Bool
  | [] => true
  | s :: rest => rest.all (fun k => !samePairS s k) && noDupSubPairs rest

/-- No-self-subscription invariant. -/
def noSelfSubs (subs : List SubDoc) : Bool :=
  subs.all (fun x => x.subscriber != x.channel)

/-- Observer: the store after `toggleVideoLike` (errors leave it unchanged). -/
def tvlState (db : DB) (u v : Nat) : DB :=
  outDB db (toggleVideoLike db u v true)

/-- Observer: the `liked` boolean reported by `toggleVideoLike`. -/
def tvlLiked (db : DB) (u v : Nat) : Bool :=
  match toggleVideoLike db u v true with
  | .ok _ _ d => d.liked
  | .err _ _ => false

/-- Observer: the store after `toggleCommentLike`. -/
def tclState (db : DB) (u c : Nat) : DB :=
  outDB db (toggleCommentLike db u c true)

/-- Observer: the `liked` boolean reported by `toggleCommentLike`. -/
def tclLiked (db : DB) (u c : Nat) : Bool :=
  match toggleCommentLike db u c true with
  | .ok _ _ d => d.liked
  | .err _ _ => false

/-- Observer: the store after `toggleTweetLike`. -/
def ttlState (db : DB) (u t : Nat) : DB :=
  outDB db (toggleTweetLike db u t true)

/-- Observer: the `liked` boolean reported by `toggleTweetLike`. -/
def ttlLiked (db : DB) (u t : Nat) : Bool :=
  match toggleTweetLike db u t true with
  | .ok _ _ d => d.liked
  | .err _ _ => false

/-- Observer: the store after `toggleSubscription`. -/
def tsState (db : DB) (u ch : Nat) : DB :=
  outDB db (toggleSubscription db u ch true)

/-- Observer: the `subscribed` boolean reported by `toggleSubscription`. -/
def tsSubscribed (db : DB) (u ch : Nat) : Bool :=
  match toggleSubscription db u ch true with
  | .ok _ _ d => d.subscribed
  | .err _ _ => false

/-- Number of items in a listing payload. -/
def listingItemsLen {α : Type} : ListingData α → Nat
  | .paged r => r.docs.length
  | .shortBeyond l _ => l.length
  | .emptyArr => 0

/-- Pagination metadata (`hasNextPage`, `hasPrevPage`) carried by a listing
response, when the response contains any. -/
def respPagedMeta {α : Type} : Out (ListingData α) → Option (Bool × Bool)
  | .ok _ _ (.paged r) => some (r.hasNextPage, r.hasPrevPage)
  | _ => none

/-- A small concrete store used to instantiate the theorems: two users, one
published video, one comment and one tweet (all owned by user 1), no likes
or subscriptions yet. -/
def exDB : DB :=
  { users := [⟨1, "alice", "alice@mail", "Alice", "av1", "cov1"⟩,
              ⟨2, "bob", "bob@mail", "Bob", "av2", "cov2"⟩]
    videos := [⟨10, 1, "T", "D", "vf", "th", true, 0, 5, 100, 100⟩]
    comments := [⟨20, 10, 1, "first", 101⟩]
    tweets := [⟨30, 1, "tw", 102⟩]
    likes := []
    subs := []
    playlists := [⟨40, 1, "pl", "desc", []⟩]
    nextId := 1000 }

/-- A store where the comment's author (user 1) differs from the parent
video's owner (user 2). -/
def ownDB : DB :=
  { users := [⟨1, "alice", "alice@mail", "Alice", "av1", "cov1"⟩,
              ⟨2, "bob", "bob@mail", "Bob", "av2", "cov2"⟩]
    videos := [⟨10, 2, "T", "D", "vf", "th", true, 0, 5, 100, 100⟩]
    comments := [⟨20, 10, 1, "hi", 101⟩]
    tweets := []
    likes := []
    subs := []
    playlists := []
    nextId := 1000 }

/-- A store whose video 10 carries a 12-comment listing. -/
def manyDB : DB :=
  { users := [⟨1, "alice", "alice@mail", "Alice", "av1", "cov1"⟩]
    videos := [⟨10, 1, "T", "D", "vf", "th", true, 0, 5, 100, 100⟩]
    comments := (List.range 12).map (fun k => ⟨50 + k, 10, 1, "c", k⟩)
    tweets := []
    likes := []
    subs := []
    playlists := []
    nextId := 1000 }

/-- A store holding a comment whose parent video (id 999) does not exist
(the cascade gap: deleting a video leaves its comments behind). -/
def orphanDB : DB :=
  { users := [⟨1, "alice", "alice@mail", "Alice", "av1", "cov1"⟩]
    videos := []
    comments := [⟨20, 999, 1, "orphan", 0⟩]
    tweets := []
    likes := []
    subs := []
    playlists := []
    nextId := 1000 }

/-- A store where user 2 has liked comment 20 and subscribed to channel 1. -/
def likeDB : DB :=
  { users := [⟨1, "alice", "alice@mail", "Alice", "av1", "cov1"⟩,
              ⟨2, "bob", "bob@mail", "Bob", "av2", "cov2"⟩]
    videos := [⟨10, 1, "T", "D", "vf", "th", true, 0, 5, 100, 100⟩]
    comments := [⟨20, 10, 1, "first", 101⟩]
    tweets := []
    likes := [⟨500, .comment 20, 2⟩]
    subs := [⟨600, 2, 1⟩]
    playlists := []
    nextId := 1000 }

/-- A store with an unpublished video. -/
def unpubDB : DB :=
  { users := [⟨1, "alice", "alice@mail", "Alice", "av1", "cov1"⟩,
              ⟨2, "bob", "bob@mail", "Bob", "av2", "cov2"⟩]
    videos := [⟨10, 1, "T", "D", "vf", "th", false, 0, 5, 100, 100⟩]
    comments := []
    tweets := []
    likes := []
    subs := []
    playlists := []
    nextId := 1000 }
theorem likedPairB_true_iff (L : List LikeDoc) (t : LikeTarget) (u : Nat) :
    likedPairB L t u = true ↔ ∃ l ∈ L, l.target = t ∧ l.likedBy = u := by
  simp [likedPairB, List.any_eq_true]

theorem likedPairB_false_iff (L : List LikeDoc) (t : LikeTarget) (u : Nat) :
    likedPairB L t u = false ↔ ∀ x ∈ L, ¬(x.target = t ∧ x.likedBy = u) := by
  simp [likedPairB, List.any_eq_false]

theorem findLike_eq_none_all (L : List LikeDoc) (t : LikeTarget) (u : Nat) :
    findLike L t u = none ↔ ∀ x ∈ L, ¬(x.target = t ∧ x.likedBy = u) := by
  induction L with
  | nil => simp [findLike]
  | cons a rest ih =>
    by_cases hpa : a.target = t ∧ a.likedBy = u
    · simp [findLike, hpa]
    · rw [findLike, if_neg hpa]
      simp only [List.mem_cons, ih]
      constructor
      · intro h x hx
        rcases hx with hx | hx
        · subst hx
          exact hpa
        · exact h x hx
      · intro h x hx
        exact h x (Or.inr hx)

theorem findLike_eq_none_iff (L : List LikeDoc) (t : LikeTarget) (u : Nat) :
    findLike L t u = none ↔ likedPairB L t u = false := by
  rw [findLike_eq_none_all, likedPairB_false_iff]

theorem findLike_some_pair (L : List LikeDoc) (t : LikeTarget) (u : Nat) (l : LikeDoc)
    (h : findLike L t u = some l) : likedPairB L t u = true := by
  induction L with
  | nil => simp [findLike] at h
  | cons a rest ih =>
    by_cases hpa : a.target = t ∧ a.likedBy = u
    · simp [likedPairB, List.any_cons, hpa]
    · rw [findLike, if_neg hpa] at h
      rw [likedPairB_true_iff]
      obtain ⟨x, hx, hxm⟩ := (likedPairB_true_iff rest t u).mp (ih h)
      exact ⟨x, List.mem_cons_of_mem a hx, hxm⟩

theorem findLike_some_matches (L : List LikeDoc) (t : LikeTarget) (u : Nat) (l : LikeDoc)
    (h : findLike L t u = some l) : l.target = t ∧ l.likedBy = u := by
  induction L with
  | nil => simp [findLike] at h
  | cons a rest ih =>
    by_cases hpa : a.target = t ∧ a.likedBy = u
    · rw [findLike, if_pos hpa] at h
      cases h
      exact hpa
    · rw [findLike, if_neg hpa] at h
      exact ih h

theorem removed_pair_absent (L : List LikeDoc) (t : LikeTarget) (u : Nat) (l : LikeDoc)
    (hInv : noDupLikePairs L = true) (h : findLike L t u = some l) :
    likedPairB (removeLikeById L l.lid) t u = false := by
  induction L with
  | nil => simp [findLike] at h
  | cons a rest ih =>
    simp only [noDupLikePairs, Bool.and_eq_true, List.all_eq_true] at hInv
    obtain ⟨h1, h2⟩ := hInv
    by_cases hpa : a.target = t ∧ a.likedBy = u
    · rw [findLike, if_pos hpa] at h
      have hal : a = l := Option.some.inj h
      subst hal
      simp only [removeLikeById, List.filter_cons, bne_self_eq_false, Bool.false_eq_true,
        if_false]
      rw [likedPairB_false_iff]
      intro k hk hkmatch
      rw [List.mem_filter] at hk
      have hs := h1 k hk.1
      simp only [samePairL, Bool.not_eq_true', Bool.and_eq_false_iff] at hs
      rcases hs with hbad | hbad
      · rw [decide_eq_false_iff_not] at hbad
        exact hbad (hpa.1.trans hkmatch.1.symm)
      · rw [beq_eq_false_iff_ne] at hbad
        exact hbad (hpa.2.trans hkmatch.2.symm)
    · rw [findLike, if_neg hpa] at h
      have hrest := ih h2 h
      simp only [removeLikeById, List.filter_cons] at hrest ⊢
      by_cases hl : (a.lid != l.lid) = true
      · rw [if_pos hl]
        rw [likedPairB_false_iff] at hrest ⊢
        intro k hk hkm
        rcases List.mem_cons.mp hk with hk | hk
        · subst hk
          exact hpa hkm
        · exact hrest k hk hkm
      · simp only [Bool.not_eq_true] at hl
        simp only [hl, Bool.false_eq_true, if_false]
        exact hrest

theorem appended_pair_present (L : List LikeDoc) (t : LikeTarget) (u i : Nat) :
    likedPairB (L ++ [⟨i, t, u⟩]) t u = true := by
  simp [likedPairB, List.any_append]

theorem noDupLikePairs_filter (L : List LikeDoc) (p : LikeDoc → Bool)
    (hInv : noDupLikePairs L = true) : noDupLikePairs (L.filter p) = true := by
  induction L with
  | nil => simp [noDupLikePairs]
  | cons a rest ih =>
    simp only [noDupLikePairs, Bool.and_eq_true, List.all_eq_true] at hInv
    obtain ⟨h1, h2⟩ := hInv
    rw [List.filter_cons]
    by_cases hpa : p a = true
    · simp only [hpa, if_true, noDupLikePairs, Bool.and_eq_true, List.all_eq_true]
      exact ⟨fun k hk => h1 k (List.mem_of_mem_filter hk), ih h2⟩
    · simp only [Bool.not_eq_true] at hpa
      simp only [hpa, Bool.false_eq_true, if_false]
      exact ih h2

theorem noDupLikePairs_append (L : List LikeDoc) (t : LikeTarget) (u i : Nat)
    (hInv : noDupLikePairs L = true) (habs : findLike L t u = none) :
    noDupLikePairs (L ++ [⟨i, t, u⟩]) = true := by
  induction L with
  | nil => rfl
  | cons a rest ih =>
    simp only [noDupLikePairs, Bool.and_eq_true, List.all_eq_true] at hInv
    obtain ⟨h1, h2⟩ := hInv
    by_cases hpa : a.target = t ∧ a.likedBy = u
    · rw [findLike, if_pos hpa] at habs
      cases habs
    · rw [findLike, if_neg hpa] at habs
      simp only [List.cons_append, noDupLikePairs, Bool.and_eq_true, List.all_eq_true]
      refine ⟨?_, ih h2 habs⟩
      intro k hk
      rcases List.mem_append.mp hk with hk2 | hk2
      · exact h1 k hk2
      · have hk3 : k = ⟨i, t, u⟩ := List.mem_singleton.mp hk2
        subst hk3
        simp only [samePairL, Bool.not_eq_true', Bool.and_eq_false_iff]
        by_cases hat : a.target = t
        · right
          rw [beq_eq_false_iff_ne]
          intro hau
          exact hpa ⟨hat, hau⟩
        · left
          exact decide_eq_false hat

theorem subPairB_true_iff (L : List SubDoc) (s c : Nat) :
    subPairB L s c = true ↔ ∃ x ∈ L, x.subscriber = s ∧ x.channel = c := by
  simp [subPairB, List.any_eq_true]

theorem subPairB_false_iff (L : List SubDoc) (s c : Nat) :
    subPairB L s c = false ↔ ∀ x ∈ L, ¬(x.subscriber = s ∧ x.channel = c) := by
  simp [subPairB, List.any_eq_false]

theorem findSub_eq_none_all (L : List SubDoc) (s c : Nat) :
    findSub L s c = none ↔ ∀ x ∈ L, ¬(x.subscriber = s ∧ x.channel = c) := by
  induction L with
  | nil => simp [findSub]
  | cons a rest ih =>
    by_cases hpa : a.subscriber = s ∧ a.channel = c
    · simp [findSub, hpa]
    · rw [findSub, if_neg hpa]
      simp only [List.mem_cons, ih]
      constructor
      · intro h x hx
        rcases hx with hx | hx
        · subst hx
          exact hpa
        · exact h x hx
      · intro h x hx
        exact h x (Or.inr hx)

theorem findSub_eq_none_iff (L : List SubDoc) (s c : Nat) :
    findSub L s c = none ↔ subPairB L s c = false := by
  rw [findSub_eq_none_all, subPairB_false_iff]

theorem findSub_some_pair (L : List SubDoc) (s c : Nat) (x : SubDoc)
    (h : findSub L s c = some x) : subPairB L s c = true := by
  induction L with
  | nil => simp [findSub] at h
  | cons a rest ih =>
    by_cases hpa : a.subscriber = s ∧ a.channel = c
    · simp [subPairB, List.any_cons, hpa]
    · rw [findSub, if_neg hpa] at h
      rw [subPairB_true_iff]
      obtain ⟨y, hy, hym⟩ := (subPairB_true_iff rest s c).mp (ih h)
      exact ⟨y, List.mem_cons_of_mem a hy, hym⟩

theorem findSub_some_matches (L : List SubDoc) (s c : Nat) (x : SubDoc)
    (h : findSub L s c = some x) : x.subscriber = s ∧ x.channel = c := by
  induction L with
  | nil => simp [findSub] at h
  | cons a rest ih =>
    by_cases hpa : a.subscriber = s ∧ a.channel = c
    · rw [findSub, if_pos hpa] at h
      cases h
      exact hpa
    · rw [findSub, if_neg hpa] at h
      exact ih h

theorem removed_subPair_absent (L : List SubDoc) (s c : Nat) (x : SubDoc)
    (hInv : noDupSubPairs L = true) (h : findSub L s c = some x) :
    subPairB (removeSubById L x.sid) s c = false := by
  induction L with
  | nil => simp [findSub] at h
  | cons a rest ih =>
    simp only [noDupSubPairs, Bool.and_eq_true, List.all_eq_true] at hInv
    obtain ⟨h1, h2⟩ := hInv
    by_cases hpa : a.subscriber = s ∧ a.channel = c
    · rw [findSub, if_pos hpa] at h
      have hal : a = x := Option.some.inj h
      subst hal
      simp only [removeSubById, List.filter_cons, bne_self_eq_false, Bool.false_eq_true,
        if_false]
      rw [subPairB_false_iff]
      intro k hk hkmatch
      rw [List.mem_filter] at hk
      have hs := h1 k hk.1
      simp only [samePairS, Bool.not_eq_true', Bool.and_eq_false_iff] at hs
      rcases hs with hbad | hbad
      · rw [beq_eq_false_iff_ne] at hbad
        exact hbad (hpa.1.trans hkmatch.1.symm)
      · rw [beq_eq_false_iff_ne] at hbad
        exact hbad (hpa.2.trans hkmatch.2.symm)
    · rw [findSub, if_neg hpa] at h
      have hrest := ih h2 h
      simp only [removeSubById, List.filter_cons] at hrest ⊢
      by_cases hl : (a.sid != x.sid) = true
      · rw [if_pos hl]
        rw [subPairB_false_iff] at hrest ⊢
        intro k hk hkm
        rcases List.mem_cons.mp hk with hk | hk
        · subst hk
          exact hpa hkm
        · exact hrest k hk hkm
      · simp only [Bool.not_eq_true] at hl
        simp only [hl, Bool.false_eq_true, if_false]
        exact hrest

theorem appended_subPair_present (L : List SubDoc) (s c i : Nat) :
    subPairB (L ++ [⟨i, s, c⟩]) s c = true := by
  simp [subPairB, List.any_append]

theorem noDupSubPairs_filter (L : List SubDoc) (p : SubDoc → Bool)
    (hInv : noDupSubPairs L = true) : noDupSubPairs (L.filter p) = true := by
  induction L with
  | nil => simp [noDupSubPairs]
  | cons a rest ih =>
    simp only [noDupSubPairs, Bool.and_eq_true, List.all_eq_true] at hInv
    obtain ⟨h1, h2⟩ := hInv
    rw [List.filter_cons]
    by_cases hpa : p a = true
    · simp only [hpa, if_true, noDupSubPairs, Bool.and_eq_true, List.all_eq_true]
      exact ⟨fun k hk => h1 k (List.mem_of_mem_filter hk), ih h2⟩
    · simp only [Bool.not_eq_true] at hpa
      simp only [hpa, Bool.false_eq_true, if_false]
      exact ih h2

theorem noDupSubPairs_append (L : List SubDoc) (s c i : Nat)
    (hInv : noDupSubPairs L = true) (habs : findSub L s c = none) :
    noDupSubPairs (L ++ [⟨i, s, c⟩]) = true := by
  induction L with
  | nil => rfl
  | cons a rest ih =>
    simp only [noDupSubPairs, Bool.and_eq_true, List.all_eq_true] at hInv
    obtain ⟨h1, h2⟩ := hInv
    by_cases hpa : a.subscriber = s ∧ a.channel = c
    · rw [findSub, if_pos hpa] at habs
      cases habs
    · rw [findSub, if_neg hpa] at habs
      simp only [List.cons_append, noDupSubPairs, Bool.and_eq_true, List.all_eq_true]
      refine ⟨?_, ih h2 habs⟩
      intro k hk
      rcases List.mem_append.mp hk with hk2 | hk2
      · exact h1 k hk2
      · have hk3 : k = ⟨i, s, c⟩ := List.mem_singleton.mp hk2
        subst hk3
        simp only [samePairS, Bool.not_eq_true', Bool.and_eq_false_iff]
        by_cases hat : a.subscriber = s
        · right
          rw [beq_eq_false_iff_ne]
          intro hau
          exact hpa ⟨hat, hau⟩
        · left
          rw [beq_eq_false_iff_ne]
          exact hat

theorem noSelfSubs_filter (L : List SubDoc) (p : SubDoc → Bool)
    (hInv : noSelfSubs L = true) : noSelfSubs (L.filter p) = true := by
  simp only [noSelfSubs, List.all_eq_true] at hInv ⊢
  intro k hk
  exact hInv k (List.mem_of_mem_filter hk)

theorem noSelfSubs_append (L : List SubDoc) (s c i : Nat)
    (hInv : noSelfSubs L = true) (hne : s ≠ c) :
    noSelfSubs (L ++ [⟨i, s, c⟩]) = true := by
  simp only [noSelfSubs, List.all_eq_true] at hInv ⊢
  intro k hk
  rcases List.mem_append.mp hk with hk2 | hk2
  · exact hInv k hk2
  · have hk3 : k = ⟨i, s, c⟩ := List.mem_singleton.mp hk2
    subst hk3
    simpa using hne

theorem toggleVideoLike_step (db : DB) (u v : Nat) (vd : VideoDoc)
    (hInv : noDupLikePairs db.likes = true)
    (hv : findVideo db v = some vd) (hp : vd.isPublished = true) :
    tvlLiked db u v = !likedPairB db.likes (.video v) u
    ∧ likedPairB (tvlState db u v).likes (.video v) u = !likedPairB db.likes (.video v) u
    ∧ noDupLikePairs (tvlState db u v).likes = true
    ∧ (tvlState db u v).videos = db.videos := by
  cases hfl : findLike db.likes (.video v) u with
  | some l =>
    have hok : toggleVideoLike db u v true =
        .ok 200 { db with likes := removeLikeById db.likes l.lid }
          ⟨v, false, countLikesFor (removeLikeById db.likes l.lid) (.video v)⟩ := by
      simp [toggleVideoLike, hv, hp, hfl]
    have hpair := findLike_some_pair _ _ _ _ hfl
    refine ⟨?_, ?_, ?_, ?_⟩
    · simp [tvlLiked, hok, hpair]
    · simp only [tvlState, hok, outDB]
      rw [hpair, removed_pair_absent _ _ _ _ hInv hfl]
      rfl
    · simp only [tvlState, hok, outDB]
      exact noDupLikePairs_filter _ _ hInv
    · simp [tvlState, hok, outDB]
  | none =>
    have habs := (findLike_eq_none_iff _ _ _).mp hfl
    have hok : toggleVideoLike db u v true =
        .ok 200 { db with likes := db.likes ++ [⟨db.nextId, .video v, u⟩], nextId := db.nextId + 1 }
          ⟨v, true, countLikesFor (db.likes ++ [⟨db.nextId, .video v, u⟩]) (.video v)⟩ := by
      simp [toggleVideoLike, hv, hp, hfl]
    refine ⟨?_, ?_, ?_, ?_⟩
    · simp [tvlLiked, hok, habs]
    · simp only [tvlState, hok, outDB]
      rw [habs, appended_pair_present]
      rfl
    · simp only [tvlState, hok, outDB]
      exact noDupLikePairs_append _ _ _ _ hInv hfl
    · simp [tvlState, hok, outDB]

theorem toggleCommentLike_step (db : DB) (u c : Nat) (cd : CommentDoc)
    (hInv : noDupLikePairs db.likes = true)
    (hc : findComment db c = some cd) :
    tclLiked db u c = !likedPairB db.likes (.comment c) u
    ∧ likedPairB (tclState db u c).likes (.comment c) u = !likedPairB db.likes (.comment c) u
    ∧ noDupLikePairs (tclState db u c).likes = true
    ∧ (tclState db u c).comments = db.comments := by
  cases hfl : findLike db.likes (.comment c) u with
  | some l =>
    have hok : toggleCommentLike db u c true =
        .ok 200 { db with likes := removeLikeById db.likes l.lid }
          ⟨c, false, countLikesFor (removeLikeById db.likes l.lid) (.comment c)⟩ := by
      simp [toggleCommentLike, hc, hfl]
    have hpair := findLike_some_pair _ _ _ _ hfl
    refine ⟨?_, ?_, ?_, ?_⟩
    · simp [tclLiked, hok, hpair]
    · simp only [tclState, hok, outDB]
      rw [hpair, removed_pair_absent _ _ _ _ hInv hfl]
      rfl
    · simp only [tclState, hok, outDB]
      exact noDupLikePairs_filter _ _ hInv
    · simp [tclState, hok, outDB]
  | none =>
    have habs := (findLike_eq_none_iff _ _ _).mp hfl
    have hok : toggleCommentLike db u c true =
        .ok 200 { db with likes := db.likes ++ [⟨db.nextId, .comment c, u⟩], nextId := db.nextId + 1 }
          ⟨c, true, countLikesFor (db.likes ++ [⟨db.nextId, .comment c, u⟩]) (.comment c)⟩ := by
      simp [toggleCommentLike, hc, hfl]
    refine ⟨?_, ?_, ?_, ?_⟩
    · simp [tclLiked, hok, habs]
    · simp only [tclState, hok, outDB]
      rw [habs, appended_pair_present]
      rfl
    · simp only [tclState, hok, outDB]
      exact noDupLikePairs_append _ _ _ _ hInv hfl
    · simp [tclState, hok, outDB]

theorem toggleTweetLike_step (db : DB) (u t : Nat) (td : TweetDoc)
    (hInv : noDupLikePairs db.likes = true)
    (ht : findTweet db t = some td) :
    ttlLiked db u t = !likedPairB db.likes (.tweet t) u
    ∧ likedPairB (ttlState db u t).likes (.tweet t) u = !likedPairB db.likes (.tweet t) u
    ∧ noDupLikePairs (ttlState db u t).likes = true
    ∧ (ttlState db u t).tweets = db.tweets := by
  cases hfl : findLike db.likes (.tweet t) u with
  | some l =>
    have hok : toggleTweetLike db u t true =
        .ok 200 { db with likes := removeLikeById db.likes l.lid }
          ⟨t, false, countLikesFor (removeLikeById db.likes l.lid) (.tweet t)⟩ := by
      simp [toggleTweetLike, ht, hfl]
    have hpair := findLike_some_pair _ _ _ _ hfl
    refine ⟨?_, ?_, ?_, ?_⟩
    · simp [ttlLiked, hok, hpair]
    · simp only [ttlState, hok, outDB]
      rw [hpair, removed_pair_absent _ _ _ _ hInv hfl]
      rfl
    · simp only [ttlState, hok, outDB]
      exact noDupLikePairs_filter _ _ hInv
    · simp [ttlState, hok, outDB]
  | none =>
    have habs := (findLike_eq_none_iff _ _ _).mp hfl
    have hok : toggleTweetLike db u t true =
        .ok 200 { db with likes := db.likes ++ [⟨db.nextId, .tweet t, u⟩], nextId := db.nextId + 1 }
          ⟨t, true, countLikesFor (db.likes ++ [⟨db.nextId, .tweet t, u⟩]) (.tweet t)⟩ := by
      simp [toggleTweetLike, ht, hfl]
    refine ⟨?_, ?_, ?_, ?_⟩
    · simp [ttlLiked, hok, habs]
    · simp only [ttlState, hok, outDB]
      rw [habs, appended_pair_present]
      rfl
    · simp only [ttlState, hok, outDB]
      exact noDupLikePairs_append _ _ _ _ hInv hfl
    · simp [ttlState, hok, outDB]

theorem toggleSubscription_step (db : DB) (u ch : Nat) (chd : UserDoc)
    (hInv : noDupSubPairs db.subs = true)
    (hne : ch ≠ u) (hch : findUser db ch = some chd) :
    tsSubscribed db u ch = !subPairB db.subs u ch
    ∧ subPairB (tsState db u ch).subs u ch = !subPairB db.subs u ch
    ∧ noDupSubPairs (tsState db u ch).subs = true
    ∧ (tsState db u ch).users = db.users := by
  cases hfs : findSub db.subs u ch with
  | some x =>
    have hok : toggleSubscription db u ch true =
        .ok 200 { db with subs := removeSubById db.subs x.sid }
          ⟨ch, false, countSubsFor (removeSubById db.subs x.sid) ch⟩ := by
      simp [toggleSubscription, hne, hch, hfs]
    have hpair := findSub_some_pair _ _ _ _ hfs
    refine ⟨?_, ?_, ?_, ?_⟩
    · simp [tsSubscribed, hok, hpair]
    · simp only [tsState, hok, outDB]
      rw [hpair, removed_subPair_absent _ _ _ _ hInv hfs]
      rfl
    · simp only [tsState, hok, outDB]
      exact noDupSubPairs_filter _ _ hInv
    · simp [tsState, hok, outDB]
  | none =>
    have habs := (findSub_eq_none_iff _ _ _).mp hfs
    have hok : toggleSubscription db u ch true =
        .ok 200 { db with subs := db.subs ++ [⟨db.nextId, u, ch⟩], nextId := db.nextId + 1 }
          ⟨ch, true, countSubsFor (db.subs ++ [⟨db.nextId, u, ch⟩]) ch⟩ := by
      simp [toggleSubscription, hne, hch, hfs]
    refine ⟨?_, ?_, ?_, ?_⟩
    · simp [tsSubscribed, hok, habs]
    · simp only [tsState, hok, outDB]
      rw [habs, appended_subPair_present]
      rfl
    · simp only [tsState, hok, outDB]
      exact noDupSubPairs_append _ _ _ _ hInv hfs
    · simp [tsState, hok, outDB]

theorem findVideo_congr {db db' : DB} (h : db'.videos = db.videos) (i : Nat) :
    findVideo db' i = findVideo db i := by
  unfold findVideo
  rw [h]

theorem findComment_congr {db db' : DB} (h : db'.comments = db.comments) (i : Nat) :
    findComment db' i = findComment db i := by
  unfold findComment
  rw [h]

theorem findTweet_congr {db db' : DB} (h : db'.tweets = db.tweets) (i : Nat) :
    findTweet db' i = findTweet db i := by
  unfold findTweet
  rw [h]

theorem findUser_congr {db db' : DB} (h : db'.users = db.users) (i : Nat) :
    findUser db' i = findUser db i := by
  unfold findUser
  rw [h]

theorem videoLike_period (db : DB) (u v : Nat) (vd : VideoDoc)
    (hInvL : noDupLikePairs db.likes = true)
    (hv : findVideo db v = some vd) (hp : vd.isPublished = true) :
    tvlLiked db u v = !likedPairB db.likes (.video v) u
    ∧ likedPairB (tvlState db u v).likes (.video v) u = !likedPairB db.likes (.video v) u
    ∧ tvlLiked (tvlState db u v) u v = likedPairB db.likes (.video v) u
    ∧ likedPairB (tvlState (tvlState db u v) u v).likes (.video v) u = likedPairB db.likes (.video v) u
    ∧ tvlLiked (tvlState (tvlState db u v) u v) u v = !likedPairB db.likes (.video v) u
    ∧ tvlLiked (tvlState (tvlState db u v) u v) u v ≠ tvlLiked (tvlState db u v) u v := by
  obtain ⟨r1, p1, i1, g1⟩ := toggleVideoLike_step db u v vd hInvL hv hp
  have hv1 : findVideo (tvlState db u v) v = some vd := by
    rw [findVideo_congr g1]
    exact hv
  obtain ⟨r2, p2, i2, g2⟩ := toggleVideoLike_step (tvlState db u v) u v vd i1 hv1 hp
  refine ⟨r1, p1, ?_, ?_, ?_, ?_⟩
  · rw [r2, p1, Bool.not_not]
  · rw [p2, p1, Bool.not_not]
  · have hv2 : findVideo (tvlState (tvlState db u v) u v) v = some vd := by
      rw [findVideo_congr g2]
      exact hv1
    obtain ⟨r3, p3, i3, g3⟩ := toggleVideoLike_step (tvlState (tvlState db u v) u v) u v vd i2 hv2 hp
    rw [r3, p2, p1, Bool.not_not]
  · have hv2 : findVideo (tvlState (tvlState db u v) u v) v = some vd := by
      rw [findVideo_congr g2]
      exact hv1
    obtain ⟨r3, p3, i3, g3⟩ := toggleVideoLike_step (tvlState (tvlState db u v) u v) u v vd i2 hv2 hp
    rw [r3, r2, p2]
    exact Bool.not_ne_self _

theorem commentLike_period (db : DB) (u c : Nat) (cd : CommentDoc)
    (hInvL : noDupLikePairs db.likes = true)
    (hc : findComment db c = some cd) :
    tclLiked db u c = !likedPairB db.likes (.comment c) u
    ∧ likedPairB (tclState db u c).likes (.comment c) u = !likedPairB db.likes (.comment c) u
    ∧ tclLiked (tclState db u c) u c = likedPairB db.likes (.comment c) u
    ∧ likedPairB (tclState (tclState db u c) u c).likes (.comment c) u = likedPairB db.likes (.comment c) u
    ∧ tclLiked (tclState (tclState db u c) u c) u c = !likedPairB db.likes (.comment c) u
    ∧ tclLiked (tclState (tclState db u c) u c) u c ≠ tclLiked (tclState db u c) u c := by
  obtain ⟨r1, p1, i1, g1⟩ := toggleCommentLike_step db u c cd hInvL hc
  have hc1 : findComment (tclState db u c) c = some cd := by
    rw [findComment_congr g1]
    exact hc
  obtain ⟨r2, p2, i2, g2⟩ := toggleCommentLike_step (tclState db u c) u c cd i1 hc1
  refine ⟨r1, p1, ?_, ?_, ?_, ?_⟩
  · rw [r2, p1, Bool.not_not]
  · rw [p2, p1, Bool.not_not]
  · have hc2 : findComment (tclState (tclState db u c) u c) c = some cd := by
      rw [findComment_congr g2]
      exact hc1
    obtain ⟨r3, p3, i3, g3⟩ := toggleCommentLike_step (tclState (tclState db u c) u c) u c cd i2 hc2
    rw [r3, p2, p1, Bool.not_not]
  · have hc2 : findComment (tclState (tclState db u c) u c) c = some cd := by
      rw [findComment_congr g2]
      exact hc1
    obtain ⟨r3, p3, i3, g3⟩ := toggleCommentLike_step (tclState (tclState db u c) u c) u c cd i2 hc2
    rw [r3, r2, p2]
    exact Bool.not_ne_self _

theorem tweetLike_period (db : DB) (u t : Nat) (td : TweetDoc)
    (hInvL : noDupLikePairs db.likes = true)
    (ht : findTweet db t = some td) :
    ttlLiked db u t = !likedPairB db.likes (.tweet t) u
    ∧ likedPairB (ttlState db u t).likes (.tweet t) u = !likedPairB db.likes (.tweet t) u
    ∧ ttlLiked (ttlState db u t) u t = likedPairB db.likes (.tweet t) u
    ∧ likedPairB (ttlState (ttlState db u t) u t).likes (.tweet t) u = likedPairB db.likes (.tweet t) u
    ∧ ttlLiked (ttlState (ttlState db u t) u t) u t = !likedPairB db.likes (.tweet t) u
    ∧ ttlLiked (ttlState (ttlState db u t) u t) u t ≠ ttlLiked (ttlState db u t) u t := by
  obtain ⟨r1, p1, i1, g1⟩ := toggleTweetLike_step db u t td hInvL ht
  have ht1 : findTweet (ttlState db u t) t = some td := by
    rw [findTweet_congr g1]
    exact ht
  obtain ⟨r2, p2, i2, g2⟩ := toggleTweetLike_step (ttlState db u t) u t td i1 ht1
  refine ⟨r1, p1, ?_, ?_, ?_, ?_⟩
  · rw [r2, p1, Bool.not_not]
  · rw [p2, p1, Bool.not_not]
  · have ht2 : findTweet (ttlState (ttlState db u t) u t) t = some td := by
      rw [findTweet_congr g2]
      exact ht1
    obtain ⟨r3, p3, i3, g3⟩ := toggleTweetLike_step (ttlState (ttlState db u t) u t) u t td i2 ht2
    rw [r3, p2, p1, Bool.not_not]
  · have ht2 : findTweet (ttlState (ttlState db u t) u t) t = some td := by
      rw [findTweet_congr g2]
      exact ht1
    obtain ⟨r3, p3, i3, g3⟩ := toggleTweetLike_step (ttlState (ttlState db u t) u t) u t td i2 ht2
    rw [r3, r2, p2]
    exact Bool.not_ne_self _

theorem subscription_period (db : DB) (u ch : Nat) (chd : UserDoc)
    (hInvS : noDupSubPairs db.subs = true)
    (hne : ch ≠ u) (hch : findUser db ch = some chd) :
    tsSubscribed db u ch = !subPairB db.subs u ch
    ∧ subPairB (tsState db u ch).subs u ch = !subPairB db.subs u ch
    ∧ tsSubscribed (tsState db u ch) u ch = subPairB db.subs u ch
    ∧ subPairB (tsState (tsState db u ch) u ch).subs u ch = subPairB db.subs u ch
    ∧ tsSubscribed (tsState (tsState db u ch) u ch) u ch = !subPairB db.subs u ch
    ∧ tsSubscribed (tsState (tsState db u ch) u ch) u ch ≠ tsSubscribed (tsState db u ch) u ch := by
  obtain ⟨r1, p1, i1, g1⟩ := toggleSubscription_step db u ch chd hInvS hne hch
  have hch1 : findUser (tsState db u ch) ch = some chd := by
    rw [findUser_congr g1]
    exact hch
  obtain ⟨r2, p2, i2, g2⟩ := toggleSubscription_step (tsState db u ch) u ch chd i1 hne hch1
  refine ⟨r1, p1, ?_, ?_, ?_, ?_⟩
  · rw [r2, p1, Bool.not_not]
  · rw [p2, p1, Bool.not_not]
  · have hch2 : findUser (tsState (tsState db u ch) u ch) ch = some chd := by
      rw [findUser_congr g2]
      exact hch1
    obtain ⟨r3, p3, i3, g3⟩ := toggleSubscription_step (tsState (tsState db u ch) u ch) u ch chd i2 hne hch2
    rw [r3, p2, p1, Bool.not_not]
  · have hch2 : findUser (tsState (tsState db u ch) u ch) ch = some chd := by
      rw [findUser_congr g2]
      exact hch1
    obtain ⟨r3, p3, i3, g3⟩ := toggleSubscription_step (tsState (tsState db u ch) u ch) u ch chd i2 hne hch2
    rw [r3, r2, p2]
    exact Bool.not_ne_self _

/-- C1 (amended): each toggle operation (`toggleVideoLike`,
`toggleCommentLike`, `toggleTweetLike`, `toggleSubscription`) reads the
current presence state of the (actor, target) pair and flips it, reporting
the new state (`liked`/`subscribed` = presence after the call); under the
at-most-one-record-per-pair invariant, two toggles in sequence return the
pair to its original presence state, and a third toggle reproduces the
FIRST toggle's result — which differs from the second's. -/
theorem C1_toggle_state_machine (db : DB) (u v c t ch : Nat)
    (vd : VideoDoc) (cd : CommentDoc) (td : TweetDoc) (chd : UserDoc)
    (hInvL : noDupLikePairs db.likes = true)
    (hInvS : noDupSubPairs db.subs = true)
    (hv : findVideo db v = some vd) (hp : vd.isPublished = true)
    (hc : findComment db c = some cd)
    (ht : findTweet db t = some td)
    (hch : findUser db ch = some chd) (hne : ch ≠ u) :
    (tvlLiked db u v = !likedPairB db.likes (.video v) u
      ∧ likedPairB (tvlState db u v).likes (.video v) u = !likedPairB db.likes (.video v) u
      ∧ tvlLiked (tvlState db u v) u v = likedPairB db.likes (.video v) u
      ∧ likedPairB (tvlState (tvlState db u v) u v).likes (.video v) u = likedPairB db.likes (.video v) u
      ∧ tvlLiked (tvlState (tvlState db u v) u v) u v = !likedPairB db.likes (.video v) u
      ∧ tvlLiked (tvlState (tvlState db u v) u v) u v ≠ tvlLiked (tvlState db u v) u v)
    ∧ (tclLiked db u c = !likedPairB db.likes (.comment c) u
      ∧ likedPairB (tclState db u c).likes (.comment c) u = !likedPairB db.likes (.comment c) u
      ∧ tclLiked (tclState db u c) u c = likedPairB db.likes (.comment c) u
      ∧ likedPairB (tclState (tclState db u c) u c).likes (.comment c) u = likedPairB db.likes (.comment c) u
      ∧ tclLiked (tclState (tclState db u c) u c) u c = !likedPairB db.likes (.comment c) u
      ∧ tclLiked (tclState (tclState db u c) u c) u c ≠ tclLiked (tclState db u c) u c)
    ∧ (ttlLiked db u t = !likedPairB db.likes (.tweet t) u
      ∧ likedPairB (ttlState db u t).likes (.tweet t) u = !likedPairB db.likes (.tweet t) u
      ∧ ttlLiked (ttlState db u t) u t = likedPairB db.likes (.tweet t) u
      ∧ likedPairB (ttlState (ttlState db u t) u t).likes (.tweet t) u = likedPairB db.likes (.tweet t) u
      ∧ ttlLiked (ttlState (ttlState db u t) u t) u t = !likedPairB db.likes (.tweet t) u
      ∧ ttlLiked (ttlState (ttlState db u t) u t) u t ≠ ttlLiked (ttlState db u t) u t)
    ∧ (tsSubscribed db u ch = !subPairB db.subs u ch
      ∧ subPairB (tsState db u ch).subs u ch = !subPairB db.subs u ch
      ∧ tsSubscribed (tsState db u ch) u ch = subPairB db.subs u ch
      ∧ subPairB (tsState (tsState db u ch) u ch).subs u ch = subPairB db.subs u ch
      ∧ tsSubscribed (tsState (tsState db u ch) u ch) u ch = !subPairB db.subs u ch
      ∧ tsSubscribed (tsState (tsState db u ch) u ch) u ch ≠ tsSubscribed (tsState db u ch) u ch) :=
  ⟨videoLike_period db u v vd hInvL hv hp,
   commentLike_period db u c cd hInvL hc,
   tweetLike_period db u t td hInvL ht,
   subscription_period db u ch chd hInvS hne hch⟩

/-- C1 witness: the amended theorem applied to the concrete store `exDB`
(user 2 toggling video 10, comment 20, tweet 30 and channel 1, all starting
absent), with the reported presence values evaluated. -/
theorem C1_toggle_state_machine_witness :
    tvlLiked exDB 2 10 = true ∧ tclLiked exDB 2 20 = true
    ∧ ttlLiked exDB 2 30 = true ∧ tsSubscribed exDB 2 1 = true := by
  have h := C1_toggle_state_machine exDB 2 10 20 30 1
    ⟨10, 1, "T", "D", "vf", "th", true, 0, 5, 100, 100⟩
    ⟨20, 10, 1, "first", 101⟩
    ⟨30, 1, "tw", 102⟩
    ⟨1, "alice", "alice@mail", "Alice", "av1", "cov1"⟩
    (by decide) (by decide) (by decide) (by decide) (by decide) (by decide) (by decide) (by decide)
  exact ⟨h.1.1.trans (by decide), h.2.1.1.trans (by decide),
    h.2.2.1.1.trans (by decide), h.2.2.2.1.trans (by decide)⟩

/-- C1 counterexample to the claim as stated: starting from `exDB` (pair
absent), the three successive `toggleVideoLike` calls by user 2 on video 10
report `liked` = true, false, true — the third toggle's result differs from
the second's (it reproduces the first's), so "a third toggle reproduces the
second's result" is false. -/
theorem C1_third_toggle_counterexample :
    tvlLiked (tvlState (tvlState exDB 2 10) 2 10) 2 10 ≠ tvlLiked (tvlState exDB 2 10) 2 10
    ∧ tvlLiked (tvlState (tvlState exDB 2 10) 2 10) 2 10 = tvlLiked exDB 2 10 := by
  decide
/-- C7: `toggleSubscription` rejects self-subscription with a 400 client
error; otherwise it deletes the existing Subscription when one exists and
creates one exactly when none exists, and it preserves the invariants that
at most one Subscription exists per (subscriber, channel) pair and that no
Subscription has subscriber = channel. -/
theorem C7_subscription_uniqueness (db : DB) (u ch : Nat) (chd : UserDoc)
    (hInv : noDupSubPairs db.subs = true) (hSelf : noSelfSubs db.subs = true)
    (hne : ch ≠ u) (hch : findUser db ch = some chd) :
    toggleSubscription db u u true = .err 400 "Users cannot subscribe to their own channel"
    ∧ ∃ db', toggleSubscription db u ch true
          = .ok 200 db' ⟨ch, !subPairB db.subs u ch, countSubsFor db'.subs ch⟩
        ∧ noDupSubPairs db'.subs = true
        ∧ noSelfSubs db'.subs = true
        ∧ subPairB db'.subs u ch = !subPairB db.subs u ch
        ∧ (findSub db.subs u ch = none → db'.subs = db.subs ++ [⟨db.nextId, u, ch⟩])
        ∧ (∀ x, findSub db.subs u ch = some x → db'.subs = removeSubById db.subs x.sid) := by
  constructor
  · simp [toggleSubscription]
  · cases hfs : findSub db.subs u ch with
    | some x =>
      have hpair := findSub_some_pair _ _ _ _ hfs
      refine ⟨{ db with subs := removeSubById db.subs x.sid }, ?_, ?_, ?_, ?_, ?_, ?_⟩
      · simp [toggleSubscription, hne, hch, hfs, hpair]
      · exact noDupSubPairs_filter _ _ hInv
      · exact noSelfSubs_filter _ _ hSelf
      · show subPairB (removeSubById db.subs x.sid) u ch = !subPairB db.subs u ch
        rw [hpair, removed_subPair_absent _ _ _ _ hInv hfs]
        rfl
      · intro hnone
        exact absurd hnone (by simp)
      · intro y hy
        have hxy : x = y := Option.some.inj hy
        subst hxy
        rfl
    | none =>
      have habs := (findSub_eq_none_iff _ _ _).mp hfs
      refine ⟨{ db with subs := db.subs ++ [⟨db.nextId, u, ch⟩], nextId := db.nextId + 1 }, ?_, ?_, ?_, ?_, ?_, ?_⟩
      · simp [toggleSubscription, hne, hch, hfs, habs]
      · exact noDupSubPairs_append _ _ _ _ hInv hfs
      · exact noSelfSubs_append _ _ _ _ hSelf (fun h => hne h.symm)
      · show subPairB (db.subs ++ [⟨db.nextId, u, ch⟩]) u ch = !subPairB db.subs u ch
        rw [habs, appended_subPair_present]
        rfl
      · intro _
        rfl
      · intro y hy
        exact absurd hy (by simp)

/-- C7 witness: the theorem applied at the concrete store `exDB` (user 2,
channel 1, no subscription yet): self-subscription is rejected and the
toggle creates the single subscription record. -/
theorem C7_subscription_uniqueness_witness :
    toggleSubscription exDB 2 2 true = .err 400 "Users cannot subscribe to their own channel"
    ∧ (tsState exDB 2 1).subs = [⟨1000, 2, 1⟩] := by
  have h := C7_subscription_uniqueness exDB 2 1
    ⟨1, "alice", "alice@mail", "Alice", "av1", "cov1"⟩
    (by decide) (by decide) (by decide) (by decide)
  obtain ⟨hself, db', hok, _, _, _, hcreate, _⟩ := h
  refine ⟨hself, ?_⟩
  have := hcreate (by decide)
  rw [tsState, hok, outDB, this]
  decide
/-- C2: for the paginated listings, the `page` and `limit` request
parameters are coerced to positive integers, a missing parameter defaults
to page 1 / limit 10, and an unparsable (`NaN`) or non-positive value also
defaults to page 1 / limit 10, before the window is computed. -/
theorem C2_page_limit_coercion :
    (∀ page limit : Option String, 0 < pageParam page ∧ 0 < limitParam limit)
    ∧ pageParam none = 1 ∧ limitParam none = 10
    ∧ (∀ s : String, jsParseInt s = none → pageParam (some s) = 1 ∧ limitParam (some s) = 10)
    ∧ (∀ (s : String) (n : Int), jsParseInt s = some n → n ≤ 0 →
        pageParam (some s) = 1 ∧ limitParam (some s) = 10)
    ∧ (∀ (s : String) (n : Int), jsParseInt s = some n → 0 < n →
        pageParam (some s) = n.toNat ∧ limitParam (some s) = n.toNat) := by
  refine ⟨?_, by decide, by decide, ?_, ?_, ?_⟩
  · intro page limit
    constructor
    · rw [pageParam]
      cases h : jsParseInt (page.getD "1") with
      | none => simp [coercePage]
      | some n =>
        simp only [coercePage]
        split
        · omega
        · omega
    · rw [limitParam]
      cases h : jsParseInt (limit.getD "10") with
      | none => simp [coerceLimit]
      | some n =>
        simp only [coerceLimit]
        split
        · omega
        · omega
  · intro s h
    constructor
    · rw [pageParam, Option.getD, h, coercePage]
    · rw [limitParam, Option.getD, h, coerceLimit]
  · intro s n h hn
    constructor
    · rw [pageParam, Option.getD, h]
      simp [coercePage]
      omega
    · rw [limitParam, Option.getD, h]
      simp [coerceLimit]
      omega
  · intro s n h hn
    constructor
    · rw [pageParam, Option.getD, h]
      simp [coercePage, hn]
    · rw [limitParam, Option.getD, h]
      simp [coerceLimit, hn]

/-- C2 witness: concrete coercions — missing parameters give page 1 and
limit 10, the unparsable string "abc" gives page 1 and limit 10, the
negative string "-3" gives page 1 and limit 10, and "5" gives 5. -/
theorem C2_page_limit_coercion_witness :
    pageParam none = 1 ∧ limitParam none = 10
    ∧ pageParam (some "abc") = 1 ∧ limitParam (some "abc") = 10
    ∧ pageParam (some "-3") = 1 ∧ limitParam (some "-3") = 10
    ∧ pageParam (some "5") = 5 := by
  have h := C2_page_limit_coercion
  refine ⟨h.2.1, h.2.2.1, ?_, ?_, ?_, ?_, ?_⟩
  · exact (h.2.2.2.1 "abc" (by decide)).1
  · exact (h.2.2.2.1 "abc" (by decide)).2
  · exact (h.2.2.2.2.1 "-3" (-3) (by decide) (by decide)).1
  · exact (h.2.2.2.2.1 "-3" (-3) (by decide) (by decide)).2
  · exact ((h.2.2.2.2.2 "5" 5 (by decide) (by decide)).1).trans (by decide)

/-- C8: for `uploadOnCloudinary` with a non-null (truthy) local file path
that exists on disk: if the remote upload fails the local temporary file is
removed and the wrapper returns null; if it succeeds the local temporary
file is removed and the upload result is returned. -/
theorem C8_upload_cleanup (p : String) (files : List String) (remote : Option UploadRes)
    (hp : p ≠ "") (hf : p ∈ files) :
    (remote = none →
      (uploadOnCloudinary (some p) files remote).1 = none
      ∧ p ∉ (uploadOnCloudinary (some p) files remote).2)
    ∧ (∀ res, remote = some res →
      (uploadOnCloudinary (some p) files remote).1 = some res
      ∧ p ∉ (uploadOnCloudinary (some p) files remote).2) := by
  have hcontains : files.contains p = true := List.elem_eq_true_of_mem hf
  constructor
  · intro h
    subst h
    simp [uploadOnCloudinary, jsFalsy, hp, hf, List.mem_filter]
  · intro res h
    subst h
    simp [uploadOnCloudinary, jsFalsy, hp, hf, List.mem_filter]

/-- C8 witness: the theorem applied to the concrete path "tmp/a" present on
disk, once with a failing upload and once with a successful one. -/
theorem C8_upload_cleanup_witness :
    (uploadOnCloudinary (some "tmp/a") ["tmp/a", "tmp/b"] none).1 = none
    ∧ "tmp/a" ∉ (uploadOnCloudinary (some "tmp/a") ["tmp/a", "tmp/b"] none).2
    ∧ (uploadOnCloudinary (some "tmp/a") ["tmp/a", "tmp/b"] (some ⟨"http://u", 7⟩)).1 = some ⟨"http://u", 7⟩
    ∧ "tmp/a" ∉ (uploadOnCloudinary (some "tmp/a") ["tmp/a", "tmp/b"] (some ⟨"http://u", 7⟩)).2 := by
  have h1 := C8_upload_cleanup "tmp/a" ["tmp/a", "tmp/b"] none (by decide) (by decide)
  have h2 := C8_upload_cleanup "tmp/a" ["tmp/a", "tmp/b"] (some ⟨"http://u", 7⟩) (by decide) (by decide)
  exact ⟨(h1.1 rfl).1, (h1.1 rfl).2, (h2.2 ⟨"http://u", 7⟩ rfl).1, (h2.2 ⟨"http://u", 7⟩ rfl).2⟩
/-- C10: when the parent video exists but has `isPublished = false`,
`addComment` (with non-blank content) and `toggleVideoLike` both reject the
request with a 403 error; since an error aborts the handler before any
write, no Comment or Like record is created.  Conversely, when `addComment`
or `toggleVideoLike` succeeds, the parent video was published. -/
theorem C10_unpublished_video_rejection (db : DB) (u vid : Nat) (vd : VideoDoc)
    (content : String) (now : Nat)
    (hv : findVideo db vid = some vd)
    (hnb : isBlankOpt (some content) = false) :
    (vd.isPublished = false →
      addComment db u vid true (some content) now = .err 403 "Cannot comment on an unpublished video"
      ∧ toggleVideoLike db u vid true = .err 403 "Cannot like an unpublished video")
    ∧ (∀ st db' d, addComment db u vid true (some content) now = .ok st db' d → vd.isPublished = true)
    ∧ (∀ st db' d, toggleVideoLike db u vid true = .ok st db' d → vd.isPublished = true) := by
  refine ⟨?_, ?_, ?_⟩
  · intro hpub
    constructor
    · simp [addComment, hnb, hv, hpub]
    · simp [toggleVideoLike, hv, hpub]
  · intro st db' d h
    by_cases hpub : vd.isPublished = true
    · exact hpub
    · simp only [Bool.not_eq_true] at hpub
      simp [addComment, hnb, hv, hpub] at h
  · intro st db' d h
    by_cases hpub : vd.isPublished = true
    · exact hpub
    · simp only [Bool.not_eq_true] at hpub
      simp [toggleVideoLike, hv, hpub] at h

/-- C10 witness: in `unpubDB` (video 10 unpublished) user 2's comment and
like are both rejected with 403. -/
theorem C10_unpublished_video_rejection_witness :
    addComment unpubDB 2 10 true (some "hey") 7 = .err 403 "Cannot comment on an unpublished video"
    ∧ toggleVideoLike unpubDB 2 10 true = .err 403 "Cannot like an unpublished video" := by
  have h := C10_unpublished_video_rejection unpubDB 2 10
    ⟨10, 1, "T", "D", "vf", "th", false, 0, 5, 100, 100⟩ "hey" 7 (by decide) (by decide)
  exact h.1 (by decide)
/-- C3 (amended): for a well-formed id, non-blank content and an existing
comment, `updateComment` is permitted exactly for the comment's owner — the
parent video's owner is NOT consulted — while `deleteComment` is permitted
exactly for the comment's owner or the still-existing parent video's owner;
any other actor receives a 403 error, and an error aborts the handler
before any write, so the comment is unchanged. -/
theorem C3_comment_mutation_auth (db : DB) (actor cid : Nat) (content : String) (c : CommentDoc)
    (hc : findComment db cid = some c)
    (hnb : isBlankOpt (some content) = false) :
    (actor = c.owner →
      updateComment db actor cid true (some content)
        = .ok 200 { db with comments := db.comments.map (fun x => if x.cid = cid then { c with content := content } else x) }
            { c with content := content })
    ∧ (actor ≠ c.owner →
      updateComment db actor cid true (some content) = .err 403 "You are not authorized to update this comment")
    ∧ ((actor = c.owner ∨ ∃ v, findVideo db c.video = some v ∧ v.owner = actor) →
      deleteComment db actor cid true
        = .ok 200 { db with comments := db.comments.filter (fun x => x.cid != cid) } cid)
    ∧ ((actor ≠ c.owner ∧ ∀ v, findVideo db c.video = some v → v.owner ≠ actor) →
      deleteComment db actor cid true = .err 403 "You are not authorized to delete this comment") := by
  refine ⟨?_, ?_, ?_, ?_⟩
  · intro heq
    subst heq
    simp [updateComment, hnb, hc]
  · intro hne
    have : (c.owner != actor) = true := by
      simp [bne_iff_ne]
      exact fun h => hne h.symm
    simp [updateComment, hnb, hc, this]
  · intro hok
    rcases hok with heq | ⟨v, hfv, hvo⟩
    · subst heq
      simp [deleteComment, hc]
    · subst hvo
      simp [deleteComment, hc, hfv]
  · intro ⟨hne, hvid⟩
    have howner : (c.owner != actor) = true := by
      simp [bne_iff_ne]
      exact fun h => hne h.symm
    cases hfv : findVideo db c.video with
    | none => simp [deleteComment, hc, hfv, howner]
    | some v =>
      have : (v.owner == actor) = false := by
        simp [beq_eq_false_iff_ne]
        exact hvid v hfv
      simp [deleteComment, hc, hfv, howner, this]

/-- C3 witness: in `ownDB` the comment's author (user 1) can update it, and
the parent video's owner (user 2) can delete it. -/
theorem C3_comment_mutation_auth_witness :
    updateComment ownDB 1 20 true (some "edit2")
      = .ok 200 { ownDB with comments := [⟨20, 10, 1, "edit2", 101⟩] } ⟨20, 10, 1, "edit2", 101⟩
    ∧ deleteComment ownDB 2 20 true = .ok 200 { ownDB with comments := [] } 20 := by
  have h1 := C3_comment_mutation_auth ownDB 1 20 "edit2" ⟨20, 10, 1, "hi", 101⟩ (by decide) (by decide)
  have h2 := C3_comment_mutation_auth ownDB 2 20 "x" ⟨20, 10, 1, "hi", 101⟩ (by decide) (by decide)
  constructor
  · exact (h1.1 (by decide)).trans (by decide)
  · exact (h2.2.2.1 (Or.inr ⟨⟨10, 2, "T", "D", "vf", "th", true, 0, 5, 100, 100⟩, by decide, by decide⟩)).trans (by decide)

/-- C3 counterexample to the claim as stated: in `ownDB` user 2 owns the
parent video (id 10) of comment 20 (authored by user 1), yet `updateComment`
rejects user 2 with 403 — the claim says update is permitted for the parent
video's owner. -/
theorem C3_video_owner_update_counterexample :
    (findComment ownDB 20).map (fun c => c.owner) = some 1
    ∧ (findComment ownDB 20).map (fun c => c.video) = some 10
    ∧ (findVideo ownDB 10).map (fun v => v.owner) = some 2
    ∧ updateComment ownDB 2 20 true (some "edit") = .err 403 "You are not authorized to update this comment" := by
  decide

theorem mem_insertSortedBy {α : Type} (le : α → α → Bool) (x y : α) (l : List α) :
    y ∈ insertSortedBy le x l ↔ y = x ∨ y ∈ l := by
  induction l with
  | nil => simp [insertSortedBy]
  | cons a rest ih =>
    rw [insertSortedBy]
    by_cases h : le x a = true
    · simp [h]
    · simp only [h, Bool.false_eq_true, if_false, List.mem_cons, ih]
      tauto

theorem mem_sortWith {α : Type} (le : α → α → Bool) (y : α) (l : List α) :
    y ∈ sortWith le l ↔ y ∈ l := by
  induction l with
  | nil => simp [sortWith]
  | cons a rest ih =>
    rw [sortWith, mem_insertSortedBy]
    simp [ih]

theorem jsInOpt_iff (actor : Option Nat) (ids : List Nat) :
    jsInOpt actor ids = true ↔ ∃ a, actor = some a ∧ a ∈ ids := by
  cases actor with
  | none => simp [jsInOpt]
  | some a => simp [jsInOpt, List.contains, List.elem_iff]

theorem coercePage_pos (o : Option Int) : 0 < coercePage o := by
  cases o with
  | none => simp [coercePage]
  | some n =>
    simp only [coercePage]
    split
    · omega
    · omega

theorem coerceLimit_pos (o : Option Int) : 0 < coerceLimit o := by
  cases o with
  | none => simp [coerceLimit]
  | some n =>
    simp only [coerceLimit]
    split
    · omega
    · omega

theorem paginate_totalPages_ge_one {α : Type} (L : List α) (p l : Nat) :
    1 ≤ (paginate L p l).totalPages := by
  simp [paginate]

theorem intGt1_of_coercePage (o : Option Int) (h : 1 < coercePage o) : intGt1 o = true := by
  cases o with
  | none => simp [coercePage] at h
  | some n =>
    by_cases hn : 0 < n
    · simp only [coercePage, hn, if_true] at h
      simp only [intGt1, decide_eq_true_eq]
      omega
    · simp [coercePage, hn] at h

theorem paginate_beyond_docs_nil {α : Type} (L : List α) (p l : Nat) (hl : 0 < l)
    (h : (paginate L p l).totalPages < p) : (paginate L p l).docs = [] := by
  simp only [paginate] at h ⊢
  have hceil : (L.length + l - 1) / l ≤ p - 1 := by omega
  have h2 : L.length + l - 1 ≤ l * (p - 1) + (l - 1) :=
    (Nat.div_le_iff_le_mul_add_pred hl).mp hceil
  have h3 : L.length ≤ l * (p - 1) := by omega
  rw [Nat.mul_comm] at h3
  rw [List.drop_eq_nil_of_le h3]
  simp

/-- C9 (amended): `getVideoComments` never consults the videos collection
(the existence check is commented out in the source), so with a well-formed
id it always answers 200 — never 404 — and its response is unchanged under
any replacement of the stored videos; when no comment references the id
(in particular for a never-existing video) the default-page listing is the
empty-array response.  (A deleted video whose comments survived the cascade
gap still lists those comments.) -/
theorem C9_missing_video_listing (db : DB) (actor : Option Nat) (vid : Nat)
    (page limit : Option String) :
    statusOf (getVideoComments db actor vid true page limit) = 200
    ∧ (∀ vids', dataOf (getVideoComments { db with videos := vids' } actor vid true page limit)
        = dataOf (getVideoComments db actor vid true page limit))
    ∧ ((∀ c ∈ db.comments, c.video ≠ vid) →
        getVideoComments db actor vid true none none = .ok 200 db .emptyArr) := by
  refine ⟨?_, ?_, ?_⟩
  · rw [getVideoComments]
    simp only [Bool.not_true, Bool.false_eq_true, if_false]
    split
    · rfl
    · split
      · rfl
      · rfl
  · intro vids'
    have hl : commentListing { db with videos := vids' } actor vid = commentListing db actor vid := rfl
    simp only [getVideoComments, hl]
    by_cases hA : ((paginate (commentListing db actor vid) (pageParam page) (limitParam limit)).docs.isEmpty
        && intGt1 (jsParseInt (page.getD "1"))) = true
    · simp [hA, dataOf]
    · simp only [Bool.not_eq_true] at hA
      by_cases hB : (paginate (commentListing db actor vid) (pageParam page) (limitParam limit)).docs.isEmpty = true
      · have hC : intGt1 (jsParseInt (page.getD "1")) = false := by
          simp [hB] at hA
          exact hA
        simp [hA, hB, hC, dataOf]
      · simp only [Bool.not_eq_true] at hB
        simp [hA, hB, dataOf]
  · intro hnone
    have hfil : db.comments.filter (fun c => c.video == vid) = [] := by
      rw [List.filter_eq_nil_iff]
      intro a ha
      simp [hnone a ha]
    have hpOpt : jsParseInt "1" = some 1 := by decide
    have hlist : commentListing db actor vid = [] := by
      rw [commentListing, hfil]
      rfl
    simp [getVideoComments, hlist, paginate, hpOpt, intGt1]

/-- C9 witness: in `exDB`, video id 999 does not exist and no comment
references it; the listing answers 200 with the empty-array payload. -/
theorem C9_missing_video_listing_witness :
    getVideoComments exDB none 999 true none none = .ok 200 exDB .emptyArr := by
  have h := C9_missing_video_listing exDB none 999 none none
  exact h.2.2 (by decide)

/-- C9 counterexample to the claim as stated: in `orphanDB` video 999 does
not exist, yet `getVideoComments` returns a 200 response whose listing
holds 1 comment (the orphan left behind by the cascade gap), not the empty
comment list the claim promises for every id of a non-existent video. -/
theorem C9_orphan_comments_counterexample :
    findVideo orphanDB 999 = none
    ∧ statusOf (getVideoComments orphanDB none 999 true none none) = 200
    ∧ (dataOf (getVideoComments orphanDB none 999 true none none)).map listingItemsLen = some 1 := by
  decide

/-- C6: in the enriched records of the comment-listing pipeline, `isLiked`
equals the membership test of the current actor's id in the joined
`likes.likedBy` array, and in the channel-profile pipeline `isSubscribed`
equals the membership test in `subscribers.subscriber`; with no
authenticated actor both flags are always false. -/
theorem C6_interaction_flags (db : DB) (actor : Option Nat) (vid : Nat) (username : Option String) :
    (∀ e ∈ commentListing db actor vid,
      (e.isLiked = true ↔ ∃ a, actor = some a ∧ a ∈ (likesFor db (.comment e.cid)).map (fun l => l.likedBy))
      ∧ (actor = none → e.isLiked = false))
    ∧ (∀ p, getUserChannelProfile db actor username = .ok 200 db p →
      (p.isSubscribed = true ↔
        ∃ a, actor = some a ∧ a ∈ (db.subs.filter (fun s => s.channel == p.uid)).map (fun s => s.subscriber))
      ∧ (actor = none → p.isSubscribed = false)) := by
  constructor
  · intro e he
    rw [commentListing, mem_sortWith] at he
    obtain ⟨c', hc', hec⟩ := List.mem_map.mp he
    subst hec
    constructor
    · simp only [enrichComment]
      exact jsInOpt_iff actor _
    · intro hact
      subst hact
      simp [enrichComment, jsInOpt]
  · intro p hp
    rw [getUserChannelProfile] at hp
    by_cases hbl : isBlankOpt username = true
    · simp [hbl] at hp
    · simp only [Bool.not_eq_true] at hbl
      simp only [hbl, Bool.false_eq_true, if_false] at hp
      cases hm : (db.users.filter (fun u => u.username == strToLower (username.getD ""))).map (enrichChannel db actor) with
      | nil =>
        rw [hm] at hp
        simp at hp
      | cons c0 rest =>
        rw [hm] at hp
        have hc0p : c0 = p := by
          injection hp
        subst hc0p
        have hc0mem : c0 ∈ (db.users.filter (fun u => u.username == strToLower (username.getD ""))).map (enrichChannel db actor) := by
          rw [hm]
          exact List.mem_cons_self c0 rest
        obtain ⟨u0, hu0, heu⟩ := List.mem_map.mp hc0mem
        subst heu
        constructor
        · simp only [enrichChannel]
          exact jsInOpt_iff actor _
        · intro hact
          subst hact
          simp [enrichChannel, jsInOpt]

/-- C6 witness: in `likeDB` (user 2 liked comment 20 and subscribed to
channel 1) the enriched comment's `isLiked` and the channel profile's
`isSubscribed` are true for actor 2 and false with no actor. -/
theorem C6_interaction_flags_witness :
    (enrichComment likeDB (some 2) ⟨20, 10, 1, "first", 101⟩).isLiked = true
    ∧ (enrichComment likeDB none ⟨20, 10, 1, "first", 101⟩).isLiked = false
    ∧ (enrichChannel likeDB (some 2) ⟨1, "alice", "alice@mail", "Alice", "av1", "cov1"⟩).isSubscribed = true
    ∧ (enrichChannel likeDB none ⟨1, "alice", "alice@mail", "Alice", "av1", "cov1"⟩).isSubscribed = false := by
  have h := C6_interaction_flags likeDB (some 2) 10 (some "alice")
  have h0 := C6_interaction_flags likeDB none 10 (some "alice")
  refine ⟨?_, ?_, ?_, ?_⟩
  · exact ((h.1 (enrichComment likeDB (some 2) ⟨20, 10, 1, "first", 101⟩) (by decide)).1).mpr
      ⟨2, rfl, by decide⟩
  · exact (h0.1 (enrichComment likeDB none ⟨20, 10, 1, "first", 101⟩) (by decide)).2 rfl
  · exact ((h.2 (enrichChannel likeDB (some 2) ⟨1, "alice", "alice@mail", "Alice", "av1", "cov1"⟩) (by decide)).1).mpr
      ⟨2, rfl, by decide⟩
  · exact (h0.2 (enrichChannel likeDB none ⟨1, "alice", "alice@mail", "Alice", "av1", "cov1"⟩) (by decide)).2 rfl

/-- C5 (amended): requesting a page strictly beyond the last page of a
listing (totalPages < coerced page) never errors: the listing answers 200
with the `{ <items>: [], nextPage: null }` short-circuit payload — which
carries the empty item array but no paginator metadata (no
`hasNextPage`/`hasPrevPage` fields). -/
theorem C5_beyond_last_page (db : DB) (actor : Option Nat) (vid chId : Nat) (chd : UserDoc)
    (page limit query sortBy sortType : Option String) (userId : Option Nat) (userIdValid : Bool)
    (hch : findUser db chId = some chd)
    (huid : userId.isSome = true → userIdValid = true) :
    ((paginate (commentListing db actor vid) (pageParam page) (limitParam limit)).totalPages < pageParam page →
      getVideoComments db actor vid true page limit = .ok 200 db (.shortBeyond [] none))
    ∧ ((paginate (videoListing db query userId sortBy sortType) (pageParam page) (limitParam limit)).totalPages < pageParam page →
      getAllVideos db page limit query sortBy sortType userId userIdValid = .ok 200 db (.shortBeyond [] none))
    ∧ ((paginate (subscriberListing db chId) (pageParam page) (limitParam limit)).totalPages < pageParam page →
      getUserChannelSubscribers db chId true page limit = .ok 200 db (.shortBeyond [] none)) := by
  refine ⟨?_, ?_, ?_⟩
  · intro h
    have hdocs := paginate_beyond_docs_nil (commentListing db actor vid) (pageParam page)
      (limitParam limit) (coerceLimit_pos _) h
    have hgt : intGt1 (jsParseInt (page.getD "1")) = true :=
      intGt1_of_coercePage _ (lt_of_le_of_lt (paginate_totalPages_ge_one (commentListing db actor vid) (pageParam page) (limitParam limit)) h)
    simp [getVideoComments, hdocs, hgt]
  · intro h
    have hdocs := paginate_beyond_docs_nil (videoListing db query userId sortBy sortType) (pageParam page)
      (limitParam limit) (coerceLimit_pos _) h
    have hgt : intGt1 (jsParseInt (page.getD "1")) = true :=
      intGt1_of_coercePage _ (lt_of_le_of_lt (paginate_totalPages_ge_one (videoListing db query userId sortBy sortType) (pageParam page) (limitParam limit)) h)
    have hguard : (userId.isSome && !userIdValid) = false := by
      cases hu : userId with
      | none => simp
      | some x =>
        have := huid (by simp [hu])
        simp [this]
    simp [getAllVideos, hguard, hdocs, hgt]
  · intro h
    have hdocs := paginate_beyond_docs_nil (subscriberListing db chId) (pageParam page)
      (limitParam limit) (coerceLimit_pos _) h
    have hgt : intGt1 (jsParseInt (page.getD "1")) = true :=
      intGt1_of_coercePage _ (lt_of_le_of_lt (paginate_totalPages_ge_one (subscriberListing db chId) (pageParam page) (limitParam limit)) h)
    simp [getUserChannelSubscribers, hch, hdocs, hgt]

/-- C5 witness: in `manyDB` (a 12-comment listing on video 10), page 5 with
limit 10 is beyond the last page (totalPages = 2) and yields the
short-circuit payload, as does page 5 of channel 1's empty subscriber
listing. -/
theorem C5_beyond_last_page_witness :
    getVideoComments manyDB none 10 true (some "5") (some "10") = .ok 200 manyDB (.shortBeyond [] none)
    ∧ getUserChannelSubscribers manyDB 1 true (some "5") (some "10") = .ok 200 manyDB (.shortBeyond [] none) := by
  have h := C5_beyond_last_page manyDB none 10 1 ⟨1, "alice", "alice@mail", "Alice", "av1", "cov1"⟩
    (some "5") (some "10") none none none none true (by decide) (fun _ => rfl)
  exact ⟨h.1 (by decide), h.2.2 (by decide)⟩

/-- C5 counterexample to the claim as stated: page 5 (limit 10) of the
12-item comment listing in `manyDB` succeeds but returns the
`{ comments: [], nextPage: null }` short-circuit payload, which contains no
`hasNextPage`/`hasPrevPage` fields at all — not a paginated object with
`hasNextPage = false` and `hasPrevPage = true` as the claim asserts. -/
theorem C5_short_circuit_counterexample :
    (commentListing manyDB none 10).length = 12
    ∧ getVideoComments manyDB none 10 true (some "5") (some "10") = .ok 200 manyDB (.shortBeyond [] none)
    ∧ respPagedMeta (getVideoComments manyDB none 10 true (some "5") (some "10")) = none := by
  decide

/-- C4 (amended): for every owner-gated mutation invoked with a well-formed
id naming a non-existent entity, the entity lookup precedes the ownership
check, so the request never yields a 403 error for any actor; it yields the
404 not-found error whenever the request passes its field validation (an
update with an empty body fails that validation with 400 before the
lookup). -/
theorem C4_lookup_before_ownership (db : DB) (actor cid vid tid pid : Nat)
    (hc : findComment db cid = none) (hv : findVideo db vid = none)
    (ht : findTweet db tid = none) (hp : findPlaylist db pid = none) :
    deleteComment db actor cid true = .err 404 "Comment not found"
    ∧ deleteVideo db actor vid true = .err 404 "Video not found"
    ∧ deleteTweet db actor tid true = .err 404 "Tweet not found"
    ∧ deletePlaylist db actor pid true = .err 404 "Playlist not found"
    ∧ (∀ content, statusOf (updateComment db actor cid true content) ≠ 403
        ∧ (isBlankOpt content = false →
            updateComment db actor cid true content = .err 404 "Comment not found"))
    ∧ (∀ content, statusOf (updateTweet db actor tid true content) ≠ 403
        ∧ (isBlankOpt content = false →
            updateTweet db actor tid true content = .err 404 "Tweet not found"))
    ∧ (∀ title description thumbPath thumbUpload,
        statusOf (updateVideo db actor vid true title description thumbPath thumbUpload) ≠ 403
        ∧ ((jsFalsy title && jsFalsy description && jsFalsy thumbPath) = false →
            updateVideo db actor vid true title description thumbPath thumbUpload = .err 404 "Video not found"))
    ∧ (∀ name description, statusOf (updatePlaylist db actor pid true name description) ≠ 403
        ∧ ((isBlankOpt name && isBlankOpt description) = false →
            updatePlaylist db actor pid true name description = .err 404 "Playlist not found")) := by
  refine ⟨?_, ?_, ?_, ?_, ?_, ?_, ?_, ?_⟩
  · simp [deleteComment, hc]
  · simp [deleteVideo, hv]
  · simp [deleteTweet, ht]
  · simp [deletePlaylist, hp]
  · intro content
    by_cases hb : isBlankOpt content = true
    · constructor
      · simp [updateComment, hb, statusOf]
      · intro hnb
        exact absurd hnb (by simp [hb])
    · have hb' : isBlankOpt content = false := by simpa using hb
      constructor
      · simp [updateComment, hb', hc, statusOf]
      · intro _
        simp [updateComment, hb', hc]
  · intro content
    by_cases hb : isBlankOpt content = true
    · constructor
      · simp [updateTweet, hb, statusOf]
      · intro hnb
        exact absurd hnb (by simp [hb])
    · have hb' : isBlankOpt content = false := by simpa using hb
      constructor
      · simp [updateTweet, hb', ht, statusOf]
      · intro _
        simp [updateTweet, hb', ht]
  · intro title description thumbPath thumbUpload
    by_cases hb : (jsFalsy title && jsFalsy description && jsFalsy thumbPath) = true
    · constructor
      · simp [updateVideo, hb, statusOf]
      · intro hnb
        exact absurd hnb (by simp [hb])
    · have hb' : (jsFalsy title && jsFalsy description && jsFalsy thumbPath) = false := by simpa using hb
      constructor
      · simp [updateVideo, hb', hv, statusOf]
      · intro _
        simp [updateVideo, hb', hv]
  · intro name description
    by_cases hb : (isBlankOpt name && isBlankOpt description) = true
    · constructor
      · simp [updatePlaylist, hb, statusOf]
      · intro hnb
        exact absurd hnb (by simp [hb])
    · have hb' : (isBlankOpt name && isBlankOpt description) = false := by simpa using hb
      constructor
      · simp [updatePlaylist, hb', hp, statusOf]
      · intro _
        simp [updatePlaylist, hb', hp]

/-- C4 witness: in `exDB`, id 999 names no entity of any type; the deletes
404, and the updates 404 once their body validation passes. -/
theorem C4_lookup_before_ownership_witness :
    deleteComment exDB 1 999 true = .err 404 "Comment not found"
    ∧ deleteVideo exDB 1 999 true = .err 404 "Video not found"
    ∧ updateComment exDB 1 999 true (some "x") = .err 404 "Comment not found"
    ∧ updatePlaylist exDB 1 999 true (some "n") none = .err 404 "Playlist not found"
    ∧ statusOf (updateComment exDB 1 999 true none) ≠ 403 := by
  have h := C4_lookup_before_ownership exDB 1 999 999 999 999
    (by decide) (by decide) (by decide) (by decide)
  exact ⟨h.1, h.2.1, (h.2.2.2.2.1 (some "x")).2 (by decide),
    (h.2.2.2.2.2.2.2 (some "n") none).2 (by decide), (h.2.2.2.2.1 none).1⟩

/-- C4 counterexample to the claim as stated: `updateComment` on the
well-formed id 999, which names no comment, with an absent body yields 400
("content cannot be empty"), not the 404 the claim promises for every
request naming a non-existent entity. -/
theorem C4_empty_body_counterexample :
    findComment exDB 999 = none
    ∧ updateComment exDB 1 999 true none = .err 400 "Comment content cannot be empty"
    ∧ statusOf (updateComment exDB 1 999 true none) ≠ 404 := by
  decide
